import Mathlib

/-!
Verification of the R4 Stripe worker (Cloudflare Worker, TypeScript) against
its natural-language specification.

The development shallowly embeds the worker's revisions:
- `Part003`: the latest revision (five endpoints, phone and SMS opt-in support);
- `Part002`: the earlier "CLEAN" revision of the webhook handler;
- `IndexTs`: the `src/index.ts` revision (its SMS opt-in coercion).

JS strings are modelled as `List Char` (the code only uses code points in the
BMP); JS numbers are modelled exactly, as rationals plus `NaN` and signed
infinities; JSON values as the inductive `JsValue`.  External runtime
builtins with no algorithmic content for the claims (`JSON.parse`,
`Date#toISOString`, `fetch` responses) are supplied by a `Runtime` oracle
record, while every outbound HTTP call the worker makes is recorded in an
explicit `OutCall` list.
-/

/- ===================================================================
   Section 1: JS string primitives used by the worker
   =================================================================== -/

/-- JS `String.prototype.split` with a one-character separator: split at every
occurrence, keeping empty pieces (`"".split(",") === [""]`). -/
def jsSplit (sep : Char) : List Char → List (List Char)
  | [] => [[]]
  | c :: cs =>
    if c = sep then [] :: jsSplit sep cs
    else
      match jsSplit sep cs with
      | [] => [[c]]
      | p :: ps => (c :: p) :: ps

/-- Characters removed by JS `String.prototype.trim`: ASCII whitespace and
line terminators, plus NBSP, BOM and the Unicode line/paragraph separators. -/
def isJsWhitespace (c : Char) : Bool :=
  c = ' ' || c = '\t' || c = '\n' || c = '\r' ||
  c = Char.ofNat 11 || c = Char.ofNat 12 ||
  c = Char.ofNat 0x00A0 || c = Char.ofNat 0xFEFF ||
  c = Char.ofNat 0x2028 || c = Char.ofNat 0x2029

/-- JS `String.prototype.trim`: strip whitespace from both ends. -/
def jsTrim (s : List Char) : List Char :=
  ((s.dropWhile isJsWhitespace).reverse.dropWhile isJsWhitespace).reverse

/-- ASCII lowercasing of one character (`toLowerCase` on `A`–`Z`; the strings
compared by the worker are hex signatures, so the ASCII range suffices). -/
def toLowerChar (c : Char) : Char :=
  if 'A' ≤ c ∧ c ≤ 'Z' then Char.ofNat (c.toNat + 32) else c

/-- JS `String.prototype.toLowerCase`, restricted to the ASCII range. -/
def jsToLower (s : List Char) : List Char := s.map toLowerChar

/-- `s.startsWith(pre)`. -/
def jsStartsWith (pre s : List Char) : Bool := List.isPrefixOf pre s

/-- Is `c` an ASCII digit (what `/\D/` excludes)? -/
def isDigitChar (c : Char) : Bool := '0' ≤ c && c ≤ '9'

/- ===================================================================
   Section 2: the constant-time hex comparison (`timingSafeEqualHex`)
   =================================================================== -/

/-- The `for` loop of `timingSafeEqualHex`: OR together the XOR of the char
codes of every aligned pair, and count the iterations performed. -/
def ctFold : Nat → Nat → List (Char × Char) → Nat × Nat
  | res, n, [] => (res, n)
  | res, n, p :: ps => ctFold (res ||| (Nat.xor p.1.toNat p.2.toNat)) (n + 1) ps

/-- `timingSafeEqualHex(a, b)` from the source: lowercase both strings, bail
out on unequal lengths, then OR the XORs of every char pair and test zero. -/
def timingSafeEqualHex (a b : List Char) : Bool :=
  let aa := jsToLower a
  let bb := jsToLower b
  if aa.length ≠ bb.length then false
  else (ctFold 0 0 (aa.zip bb)).1 == 0

/-- Number of loop iterations `timingSafeEqualHex(a, b)` performs (0 when the
length guard fails before the loop). -/
def timingSafeEqualHexIters (a b : List Char) : Nat :=
  let aa := jsToLower a
  let bb := jsToLower b
  if aa.length ≠ bb.length then 0
  else (ctFold 0 0 (aa.zip bb)).2

/- ===================================================================
   Section 3: SHA-256 and HMAC-SHA256, executable over byte lists
   (32-bit words as `Nat` reduced mod 2^32)
   =================================================================== -/

/-- Lowercase hex digits (as `Number.prototype.toString(16)` uses). -/
def hexDigits : List Char := "0123456789abcdef".toList

def hexDigit (n : Nat) : Char := hexDigits.getD (n % 16) '0'

/-- `b.toString(16).padStart(2, "0")` for a byte value `b < 256`. -/
def byteToHex (b : Nat) : List Char := [hexDigit (b / 16), hexDigit b]

/-- `bufferToHex` from the source: two lowercase hex digits per byte. -/
def bufferToHex (bytes : List Nat) : List Char :=
  (bytes.map byteToHex).flatten

def w32 (n : Nat) : Nat := n % 4294967296

def rotr32 (n x : Nat) : Nat := w32 (x / 2 ^ n + x % 2 ^ n * 2 ^ (32 - n))

def xor3 (a b c : Nat) : Nat := Nat.xor a (Nat.xor b c)

def bigSigma0 (x : Nat) : Nat := xor3 (rotr32 2 x) (rotr32 13 x) (rotr32 22 x)
def bigSigma1 (x : Nat) : Nat := xor3 (rotr32 6 x) (rotr32 11 x) (rotr32 25 x)
def smallSigma0 (x : Nat) : Nat := xor3 (rotr32 7 x) (rotr32 18 x) (x / 2 ^ 3)
def smallSigma1 (x : Nat) : Nat := xor3 (rotr32 17 x) (rotr32 19 x) (x / 2 ^ 10)

def chFn (x y z : Nat) : Nat := Nat.xor (Nat.land x y) (Nat.land (4294967295 - w32 x) z)
def majFn (x y z : Nat) : Nat := xor3 (Nat.land x y) (Nat.land x z) (Nat.land y z)

def sha256K : List Nat :=
  [1116352408, 1899447441, 3049323471, 3921009573, 961987163, 1508970993, 2453635748, 2870763221,
   3624381080, 310598401, 607225278, 1426881987, 1925078388, 2162078206, 2614888103, 3248222580,
   3835390401, 4022224774, 264347078, 604807628, 770255983, 1249150122, 1555081692, 1996064986,
   2554220882, 2821834349, 2952996808, 3210313671, 3336571891, 3584528711, 113926993, 338241895,
   666307205, 773529912, 1294757372, 1396182291, 1695183700, 1986661051, 2177026350, 2456956037,
   2730485921, 2820302411, 3259730800, 3345764771, 3516065817, 3600352804, 4094571909, 275423344,
   430227734, 506948616, 659060556, 883997877, 958139571, 1322822218, 1537002063, 1747873779,
   1955562222, 2024104815, 2227730452, 2361852424, 2428436474, 2756734187, 3204031479, 3329325298]

structure Hash8 where
  a : Nat
  b : Nat
  c : Nat
  d : Nat
  e : Nat
  f : Nat
  g : Nat
  h : Nat
deriving DecidableEq

def sha256Init : Hash8 :=
  ⟨0x6a09e667, 0xbb67ae85, 0x3c6ef372, 0xa54ff53a, 0x510e527f, 0x9b05688c, 0x1f83d9ab, 0x5be0cd19⟩

/-- Big-endian bytes of the 64-bit message bit length. -/
def lenBytes64 (n : Nat) : List Nat :=
  [n / 2 ^ 56 % 256, n / 2 ^ 48 % 256, n / 2 ^ 40 % 256, n / 2 ^ 32 % 256,
   n / 2 ^ 24 % 256, n / 2 ^ 16 % 256, n / 2 ^ 8 % 256, n % 256]

/-- SHA-256 padding: `0x80`, zeros up to 56 mod 64, then the bit length. -/
def sha256Pad (msg : List Nat) : List Nat :=
  msg ++ 128 :: List.replicate ((119 - msg.length % 64) % 64) 0 ++ lenBytes64 (msg.length * 8)

/-- Group bytes into big-endian 32-bit words. -/
def toWords : List Nat → List Nat
  | a :: b :: c :: d :: rest => (a * 16777216 + b * 65536 + c * 256 + d) :: toWords rest
  | _ => []

/-- Split a word list into blocks of 16 (fuel recursion, so that the kernel
can evaluate it; the fuel is instantiated with the list length). -/
def chunk16 : Nat → List Nat → List (List Nat)
  | 0, _ => []
  | _, [] => []
  | fuel + 1, ws => ws.take 16 :: chunk16 fuel (ws.drop 16)

/-- Extend a 16-word block to the 64-word message schedule. -/
def extendSchedule : Nat → List Nat → List Nat
  | 0, ws => ws
  | n + 1, ws =>
    let l := ws.length
    let nw := w32 (smallSigma1 (ws.getD (l - 2) 0) + ws.getD (l - 7) 0 +
                   smallSigma0 (ws.getD (l - 15) 0) + ws.getD (l - 16) 0)
    extendSchedule n (ws ++ [nw])

def sha256Round (s : Hash8) (kw : Nat × Nat) : Hash8 :=
  let t1 := w32 (s.h + bigSigma1 s.e + chFn s.e s.f s.g + kw.1 + kw.2)
  let t2 := w32 (bigSigma0 s.a + majFn s.a s.b s.c)
  ⟨w32 (t1 + t2), s.a, s.b, s.c, w32 (s.d + t1), s.e, s.f, s.g⟩

def compressBlock (s : Hash8) (block : List Nat) : Hash8 :=
  let w := extendSchedule 48 block
  let t := (sha256K.zip w).foldl sha256Round s
  ⟨w32 (s.a + t.a), w32 (s.b + t.b), w32 (s.c + t.c), w32 (s.d + t.d),
   w32 (s.e + t.e), w32 (s.f + t.f), w32 (s.g + t.g), w32 (s.h + t.h)⟩

def wordBytes (w : Nat) : List Nat := [w / 16777216 % 256, w / 65536 % 256, w / 256 % 256, w % 256]

/-- SHA-256 of a byte list. -/
def sha256 (msg : List Nat) : List Nat :=
  let padded := sha256Pad msg
  let blocks := chunk16 padded.length (toWords padded)
  let s := blocks.foldl compressBlock sha256Init
  ([s.a, s.b, s.c, s.d, s.e, s.f, s.g, s.h].map wordBytes).flatten

/-- UTF-8 bytes of one character, as `TextEncoder.encode` produces them. -/
def utf8Char (c : Char) : List Nat :=
  let n := c.toNat
  if n < 128 then [n]
  else if n < 2048 then [192 + n / 64, 128 + n % 64]
  else if n < 65536 then [224 + n / 4096, 128 + n / 64 % 64, 128 + n % 64]
  else [240 + n / 262144, 128 + n / 4096 % 64, 128 + n / 64 % 64, 128 + n % 64]

/-- `new TextEncoder().encode(s)`. -/
def utf8 (s : List Char) : List Nat := (s.map utf8Char).flatten

/-- HMAC-SHA256 over byte lists (what `crypto.subtle.importKey`/`sign` with
`{ name: "HMAC", hash: "SHA-256" }` computes). -/
def hmacSHA256 (key msg : List Nat) : List Nat :=
  let k0 := if 64 < key.length then sha256 key else key
  let k := k0 ++ List.replicate (64 - k0.length) 0
  sha256 (k.map (Nat.xor 92) ++ sha256 (k.map (Nat.xor 54) ++ msg))

/-- `hmacSHA256Hex(secret, message)` from the source: HMAC-SHA256 with UTF-8
key and message, hex-encoded through `bufferToHex`. -/
def hmacSHA256Hex (secret message : List Char) : List Char :=
  bufferToHex (hmacSHA256 (utf8 secret) (utf8 message))

/- ===================================================================
   Section 4: `verifyStripeSignature`
   =================================================================== -/

/-- `verifyStripeSignature(payload, sigHeader, secret)` from the source:
split the header on commas, trim the parts, find the first `t=` part and all
`v1=` parts, reject when either is missing, and otherwise accept iff some
`v1=` candidate equals (via `timingSafeEqualHex`) the lowercase hex
HMAC-SHA256 of `"<timestamp>.<payload>"`. -/
def verifyStripeSignature (payload sigHeader secret : List Char) : Bool :=
  let parts := (jsSplit ',' sigHeader).map jsTrim
  let tPart := parts.find? (fun p => jsStartsWith ("t=".toList) p)
  let v1Parts := parts.filter (fun p => jsStartsWith ("v1=".toList) p)
  match tPart with
  | none => false
  | some tp =>
    if v1Parts.isEmpty then false
    else
      let timestamp := tp.drop 2
      let expected := hmacSHA256Hex secret (timestamp ++ '.' :: payload)
      v1Parts.any (fun v1 => timingSafeEqualHex (v1.drop 3) expected)


/- ===================================================================
   Section 5: JSON / JS values and conversions
   =================================================================== -/

/-- A JS number, modelled exactly: `NaN`, signed infinities, or a rational.
(The worker's numeric paths — amount validation and cent/decimal
conversion — are exact on the decimal inputs the claims mention, so the
rational model agrees with IEEE-754 doubles on everything the claims test.) -/
inductive JsNumber where
  | nan
  | inf (neg : Bool)
  | val (q : ℚ)
deriving DecidableEq

mutual
/-- A JSON/JS value as the worker's handlers traverse it (arrays and objects
as their own list-like types so that equality and recursion stay
structural). -/
inductive JsValue where
  | undefined
  | null
  | bool (b : Bool)
  | num (n : JsNumber)
  | str (s : List Char)
  | arr (elems : JsArr)
  | obj (fields : JsObj)
deriving DecidableEq
inductive JsArr where
  | nil
  | cons (head : JsValue) (tail : JsArr)
deriving DecidableEq
inductive JsObj where
  | nil
  | cons (key : List Char) (value : JsValue) (tail : JsObj)
deriving DecidableEq
end

/-- Build an object from an association list (first binding wins on lookup,
as in a JS object literal with distinct keys). -/
def JsValue.mkObj (l : List (List Char × JsValue)) : JsValue :=
  .obj (l.foldr (fun kv acc => .cons kv.1 kv.2 acc) .nil)

def jsObjFind : JsObj → List Char → Option JsValue
  | .nil, _ => none
  | .cons k v rest, key => if k = key then some v else jsObjFind rest key

/-- `v?.key` — property access with optional chaining: objects look the key
up, everything else yields `undefined`. -/
def jsGet (v : JsValue) (key : List Char) : JsValue :=
  match v with
  | .obj fs =>
    match jsObjFind fs key with
    | some x => x
    | none => .undefined
  | _ => .undefined

/-- JS truthiness. -/
def jsTruthy : JsValue → Bool
  | .undefined => false
  | .null => false
  | .bool b => b
  | .num .nan => false
  | .num (.inf _) => true
  | .num (.val q) => q ≠ 0
  | .str s => s ≠ []
  | .arr _ => true
  | .obj _ => true

/-- JS `a || b`. -/
def jsOr (a b : JsValue) : JsValue := if jsTruthy a then a else b

/-- JS `a ?? b`. -/
def jsCoalesce (a b : JsValue) : JsValue :=
  match a with
  | .undefined => b
  | .null => b
  | _ => a

/-- Decimal digits of a natural number (fuel recursion; `natStr` instantiates
the fuel large enough). -/
def natDigitsAux : Nat → Nat → List Char
  | 0, _ => []
  | fuel + 1, n => if n < 10 then [hexDigit n] else natDigitsAux fuel (n / 10) ++ [hexDigit (n % 10)]

def natStr (n : Nat) : List Char := natDigitsAux (n + 1) n

def intStr (i : ℤ) : List Char :=
  if i < 0 then '-' :: natStr i.natAbs else natStr i.toNat

/-- Decimal digits of a rational in `[0, 1)`, up to `fuel` places (exact for
terminating decimals, which is all the worker's arithmetic produces). -/
def fracDigits : Nat → ℚ → List Char
  | 0, _ => []
  | fuel + 1, q =>
    if q = 0 then []
    else
      let q10 := q * 10
      hexDigit q10.floor.toNat :: fracDigits fuel (q10 - q10.floor)

/-- JS number-to-string: integers render exactly; non-integral rationals
render sign, integer part and up to 20 exact fraction digits. -/
def jsNumToString : JsNumber → List Char
  | .nan => "NaN".toList
  | .inf true => "-Infinity".toList
  | .inf false => "Infinity".toList
  | .val q =>
    if q.den = 1 then intStr q.num
    else
      let r := |q|
      (if q < 0 then ['-'] else []) ++ intStr r.floor ++ '.' :: fracDigits 20 (r - r.floor)

mutual
/-- `String(v)`. -/
def jsToString : JsValue → List Char
  | .undefined => "undefined".toList
  | .null => "null".toList
  | .bool true => "true".toList
  | .bool false => "false".toList
  | .num n => jsNumToString n
  | .str s => s
  | .obj _ => "[object Object]".toList
  | .arr es => jsArrJoin es
/-- `Array.prototype.toString`: elements joined with commas, `null` and
`undefined` elements rendering empty. -/
def jsArrJoin : JsArr → List Char
  | .nil => []
  | .cons v rest =>
    (match v with
     | .null => []
     | .undefined => []
     | v => jsToString v)
    ++ (match rest with
        | .nil => []
        | r => ',' :: jsArrJoin r)
end

/-- `String(v || "")`, the worker's pervasive defaulting idiom. -/
def jsStrOrEmpty (v : JsValue) : List Char := jsToString (jsOr v (.str []))

/-- `v ? String(v) : ""`, the worker's id-extraction idiom. -/
def jsStrIfTruthy (v : JsValue) : List Char := if jsTruthy v then jsToString v else []

def digitsToNat (ds : List Char) : Nat := ds.foldl (fun acc c => acc * 10 + (c.toNat - 48)) 0

def isHexDigitChar (c : Char) : Bool :=
  isDigitChar c || ('a' ≤ c && c ≤ 'f') || ('A' ≤ c && c ≤ 'F')

def hexCharVal (c : Char) : Nat :=
  if isDigitChar c then c.toNat - 48
  else if 'a' ≤ c && c ≤ 'f' then c.toNat - 87
  else c.toNat - 55

def hexDigitsToNat (ds : List Char) : Nat := ds.foldl (fun acc c => acc * 16 + hexCharVal c) 0

/-- Powers of ten in `ℚ` (first-order, so that concrete parses evaluate). -/
def qpow10 : Nat → ℚ
  | 0 => 1
  | n + 1 => qpow10 n * 10

/-- Integer powers of ten in `ℚ`. -/
def qpow10Int : ℤ → ℚ
  | .ofNat n => qpow10 n
  | .negSucc n => 1 / qpow10 (n + 1)

/-- Split a list at the first character satisfying `p` (separator dropped). -/
def splitOnceAt (p : Char → Bool) : List Char → List Char × Option (List Char)
  | [] => ([], none)
  | c :: cs =>
    if p c then ([], some cs)
    else
      let r := splitOnceAt p cs
      (c :: r.1, r.2)

/-- Parse an unsigned decimal mantissa: `digits [. digits]` or `. digits`. -/
def parseMantissa (s : List Char) : Option ℚ :=
  let intPart := s.takeWhile isDigitChar
  let rest := s.dropWhile isDigitChar
  match rest with
  | [] => if intPart = [] then none else some (digitsToNat intPart : ℚ)
  | '.' :: frac =>
    if frac.all isDigitChar ∧ (intPart ≠ [] ∨ frac ≠ []) then
      some ((digitsToNat intPart : ℚ) + (digitsToNat frac : ℚ) / qpow10 frac.length)
    else none
  | _ => none

/-- Parse an optional exponent: `[+|-] digits`. -/
def parseExponent (s : List Char) : Option ℤ :=
  let body :=
    match s with
    | '+' :: r => ((1 : ℤ), r)
    | '-' :: r => ((-1 : ℤ), r)
    | r => ((1 : ℤ), r)
  if body.2 ≠ [] ∧ body.2.all isDigitChar then some (body.1 * (digitsToNat body.2 : ℤ)) else none

/-- A signed decimal number with optional exponent, or `NaN`. -/
def jsParseSigned (s : List Char) : JsNumber :=
  let p :=
    match s with
    | '+' :: r => ((1 : ℚ), r)
    | '-' :: r => ((-1 : ℚ), r)
    | r => ((1 : ℚ), r)
  let me := splitOnceAt (fun c => c = 'e' ∨ c = 'E') p.2
  match parseMantissa me.1 with
  | none => .nan
  | some m =>
    match me.2 with
    | none => .val (p.1 * m)
    | some e =>
      match parseExponent e with
      | none => .nan
      | some z => .val (p.1 * m * qpow10Int z)

/-- `Number(s)` for a string: trim; empty is 0; `Infinity` forms; `0x`/`0X`
hex; otherwise signed decimal with optional exponent; anything else `NaN`.
(The rarely-used `0o`/`0b` radix forms parse to `NaN` here — a documented
simplification; no claim involves them.) -/
def jsParseNumber (s0 : List Char) : JsNumber :=
  let s := jsTrim s0
  if s = [] then .val 0
  else if s = "Infinity".toList ∨ s = "+Infinity".toList then .inf false
  else if s = "-Infinity".toList then .inf true
  else
    match s with
    | '0' :: x :: rest =>
      if x = 'x' ∨ x = 'X' then
        if rest ≠ [] ∧ rest.all isHexDigitChar then .val (hexDigitsToNat rest : ℚ) else .nan
      else jsParseSigned s
    | _ => jsParseSigned s

/-- `Number(v)` (`ToNumber`): arrays convert through their string form. -/
def jsToNumber (v : JsValue) : JsNumber :=
  match v with
  | .undefined => .nan
  | .null => .val 0
  | .bool b => .val (if b then 1 else 0)
  | .num n => n
  | .str s => jsParseNumber s
  | .obj _ => .nan
  | .arr es => jsParseNumber (jsToString (.arr es))

/-- `Number.isFinite`. -/
def jsNumFinite : JsNumber → Bool
  | .val _ => true
  | _ => false

/-- `n <= 0` with JS comparison semantics (`NaN` compares false). -/
def jsLeZero : JsNumber → Bool
  | .nan => false
  | .inf neg => neg
  | .val q => q ≤ 0

/-- `Math.round(q)`: nearest integer, ties towards positive infinity. -/
def jsRound (q : ℚ) : ℤ := (q + 1 / 2).floor

/-- `Math.round` lifted to JS numbers. -/
def jsMathRound : JsNumber → JsNumber
  | .nan => .nan
  | .inf s => .inf s
  | .val q => .val (jsRound q)

/-- Multiplication by a positive rational constant (the worker's `* 100`
and `* 1000` scalings). -/
def jsNumScale (k : ℚ) : JsNumber → JsNumber
  | .nan => .nan
  | .inf s => .inf s
  | .val q => .val (q * k)

/-- `n.toFixed(2)`: two fraction digits, value rounded to nearest, ties to
the larger candidate. -/
def jsToFixed2 : JsNumber → List Char
  | .nan => "NaN".toList
  | .inf true => "-Infinity".toList
  | .inf false => "Infinity".toList
  | .val q =>
    let n := jsRound (q * 100)
    let m := n.natAbs
    (if n < 0 then ['-'] else []) ++ natStr (m / 100) ++ '.' ::
      (if m % 100 < 10 then '0' :: natStr (m % 100) else natStr (m % 100))

/- ===================================================================
   Section 6: shared worker pieces (both revisions)
   =================================================================== -/

/-- `parseSmsOptIn`'s result record (`{ smsOptIn, smsOptInBool }`). -/
structure SmsOptInResult where
  smsOptIn : List Char
  smsOptInBool : Bool
deriving DecidableEq

/-- `parseSmsOptIn(v)` from the latest revision: `true`/`1` and `false`/`0`
short-circuit; otherwise `String(v ?? "")`, trimmed and lowercased, maps
`"true" | "yes" | "y" | "1"` to yes and everything else to no. -/
def parseSmsOptIn (v : JsValue) : SmsOptInResult :=
  if v = .bool true ∨ v = .num (.val 1) then ⟨"yes".toList, true⟩
  else if v = .bool false ∨ v = .num (.val 0) then ⟨"no".toList, false⟩
  else
    let s := jsToLower (jsTrim (jsToString (jsCoalesce v (.str []))))
    if s = "true".toList ∨ s = "yes".toList ∨ s = "y".toList ∨ s = "1".toList then
      ⟨"yes".toList, true⟩
    else ⟨"no".toList, false⟩

/-- `isLikelyE164(phone)`: trim (its argument is already a string, so
`String(phone || "")` is the identity on it), require a leading `+`, then
require 10–15 digit characters (`replace(/\D/g, "")` keeps ASCII digits). -/
def isLikelyE164 (phone : List Char) : Bool :=
  let p := jsTrim phone
  if ¬ jsStartsWith ("+".toList) p then false
  else
    let digits := p.filter isDigitChar
    decide (10 ≤ digits.length ∧ digits.length ≤ 15)

/-- The GoHighLevel upsert payload the worker posts (`customFields` already
cleaned; `email`/`phone`/`name` present only when their trim is nonempty). -/
structure GhlPayload where
  locationId : List Char
  tags : List (List Char)
  customFields : List (List Char × List Char)
  source : List Char
  email : Option (List Char)
  phone : Option (List Char)
  name : Option (List Char)
deriving DecidableEq

/-- The `input` argument of `ghlUpsertContact`. -/
structure GhlInput where
  email : List Char
  phone : List Char
  name : List Char
  tags : List (List Char)
  custom : List (List Char × List Char)
deriving DecidableEq

/-- One outbound HTTP call performed by the worker. -/
inductive OutCall where
  | getCustomer (customerId : List Char)
  | updateCustomerMetadata (customerId : List Char) (metadata : List (List Char × List Char))
  | ghlUpsert (payload : GhlPayload)
  | createCheckoutSession (params : List (List Char × List Char))
deriving DecidableEq

/-- An outbound fetch's observable outcome: HTTP `ok` flag plus the parsed
body (`res.json().catch(() => null)`, so `null` on parse failure). -/
structure StripeResp where
  ok : Bool
  json : JsValue

/-- Runtime oracle for the JS builtins the worker delegates to: `JSON.parse`
(`none` models a parse exception), the fetch responses, and the `Date`
formatting calls.  The worker never branches on the outcome of the
metadata-update or contact-upsert calls, so those need no oracle. -/
structure Runtime where
  jsonParse : List Char → Option JsValue
  customerResp : List Char → StripeResp
  createSessionResp : List (List Char × List Char) → StripeResp
  nowIso : List Char
  dateToIso : JsNumber → List Char

/-- `stripeGetCustomer`: fetch the customer record, returning the parsed
body on success and `null` on a non-2xx response. -/
def stripeGetCustomer (rt : Runtime) (customerId : List Char) : JsValue :=
  let res := rt.customerResp customerId
  if res.ok then res.json else .null

/-- `stripeUpdateCustomerMetadata` (identical in both revisions): trim every
value (the values are already strings, so `String(v ?? "")` is the
identity), drop entries whose trimmed value is empty — the keys pass
through untouched — and make no call at all when nothing survives.
`Object.entries` iterates the caller's literal in insertion order, which
`List` order models. -/
def stripeUpdateCustomerMetadata (customerId : List Char)
    (metadata : List (List Char × List Char)) : Option OutCall :=
  let clean := metadata.filterMap (fun kv =>
    let vv := jsTrim kv.2
    if vv = [] then none else some (kv.1, vv))
  if clean = [] then none else some (.updateCustomerMetadata customerId clean)

/-- The inbound webhook request surface the handler reads. -/
structure WebhookRequest where
  method : List Char
  stripeSignature : Option (List Char)
  rawBody : List Char

/-- The webhook handler's response plus its recorded outbound calls. -/
structure WebhookOutcome where
  status : Nat
  body : List Char
  calls : List OutCall
deriving DecidableEq

/-- Response of a checkout-session-creation endpoint: a `json({error}, s)`
rejection or the `json({url}, 200)` success. -/
inductive CreateResp where
  | err (status : Nat) (msg : List Char)
  | ok (url : JsValue)

def respStatus : CreateResp → Nat
  | .err s _ => s
  | .ok _ => 200

def respErrMsg : CreateResp → Option (List Char)
  | .err _ m => some m
  | .ok _ => none

/-- A creation endpoint's response together with its outbound calls. -/
structure CreateOutcome where
  resp : CreateResp
  calls : List OutCall

/-- Truthiness of an optional string env binding (`undefined` or empty
string are falsy). -/
def optFalsy (o : Option (List Char)) : Bool :=
  match o with
  | none => true
  | some s => s = []

/- ===================================================================
   Section 7: the latest revision (five-endpoint worker)
   =================================================================== -/

namespace Part003

/-- The worker `Env`: both Stripe secrets required, GHL pair optional. -/
structure Env where
  STRIPE_SECRET_KEY : List Char
  STRIPE_WEBHOOK_SECRET : List Char
  GHL_PRIVATE_TOKEN : Option (List Char)
  GHL_LOCATION_ID : Option (List Char)

/-- `ghlUpsertContact`: skip (no call) when GHL is not configured; otherwise
build the payload — custom fields trimmed and empty ones dropped, the
identifier fields included only when their trim is truthy. -/
def ghlUpsertContact (env : Env) (input : GhlInput) : Option OutCall :=
  if optFalsy env.GHL_PRIVATE_TOKEN || optFalsy env.GHL_LOCATION_ID then none
  else
    some (.ghlUpsert
      { locationId := env.GHL_LOCATION_ID.getD []
        tags := input.tags
        customFields := input.custom.filterMap (fun kv =>
          let fv := jsTrim kv.2
          if fv = [] then none else some (kv.1, fv))
        source := "stripe-webhook".toList
        email := if jsTrim input.email = [] then none else some (jsTrim input.email)
        phone := if jsTrim input.phone = [] then none else some (jsTrim input.phone)
        name := if jsTrim input.name = [] then none else some (jsTrim input.name) })

/-- The `checkout.session.completed` branch of `handleStripeWebhook`. -/
def checkoutCompletedCalls (env : Env) (rt : Runtime) (session : JsValue) : List OutCall :=
  let mode := jsStrOrEmpty (jsGet session ("mode".toList))
  let customerId := jsStrIfTruthy (jsGet session ("customer".toList))
  let subscriptionId := jsStrIfTruthy (jsGet session ("subscription".toList))
  let md := jsOr (jsGet session ("metadata".toList)) (JsValue.mkObj [])
  let purchaseType := jsToString (jsOr (jsGet md ("purchaseType".toList))
    (.str (if mode = "payment".toList then "one_time".toList else "subscription".toList)))
  let partNumber := jsStrOrEmpty (jsGet md ("partNumber".toList))
  let serviceSummary := jsStrOrEmpty (jsGet md ("serviceSummary".toList))
  let monthlyAmount := jsStrOrEmpty (jsGet md ("monthlyAmount".toList))
  let oneTimeAmount := jsStrOrEmpty (jsGet md ("oneTimeAmount".toList))
  let selectorPhone := jsTrim (jsStrOrEmpty (jsGet md ("selectorPhone".toList)))
  let smsOptIn := jsTrim (jsStrOrEmpty (jsGet md ("smsOptIn".toList)))
  let smsOptInTs := jsTrim (jsStrOrEmpty (jsGet md ("smsOptInTs".toList)))
  let cd := jsGet session ("customer_details".toList)
  let email0 := jsTrim (jsToString (jsOr (jsGet cd ("email".toList))
    (jsOr (jsGet session ("customer_email".toList))
      (jsOr (jsGet cd ("email_address".toList)) (.str [])))))
  let phone0 := jsTrim (jsStrOrEmpty (jsGet cd ("phone".toList)))
  let phone1 := if phone0 = [] ∧ selectorPhone ≠ [] then selectorPhone else phone0
  let name0 := jsTrim (jsStrOrEmpty (jsGet cd ("name".toList)))
  let needCust := (email0 = [] ∨ name0 = [] ∨ phone1 = []) ∧ customerId ≠ []
  let cust := if needCust then stripeGetCustomer rt customerId else .null
  let email := if needCust ∧ email0 = [] then jsTrim (jsStrOrEmpty (jsGet cust ("email".toList))) else email0
  let name := if needCust ∧ name0 = [] then jsTrim (jsStrOrEmpty (jsGet cust ("name".toList))) else name0
  let phone := if needCust ∧ phone1 = [] then jsTrim (jsStrOrEmpty (jsGet cust ("phone".toList))) else phone1
  let custCalls := if needCust then [OutCall.getCustomer customerId] else []
  let updCalls :=
    if customerId ≠ [] then
      (stripeUpdateCustomerMetadata customerId
        [("partNumber".toList, partNumber),
         ("serviceSummary".toList, serviceSummary),
         ("monthlyAmount".toList, monthlyAmount),
         ("oneTimeAmount".toList, oneTimeAmount),
         ("purchaseType".toList, purchaseType),
         ("stripeCustomerId".toList, customerId),
         ("stripeSubscriptionId".toList, subscriptionId),
         ("subscriptionStatus".toList, if subscriptionId ≠ [] then "active".toList else "n/a".toList),
         ("lastCheckoutSession".toList, jsStrOrEmpty (jsGet session ("id".toList))),
         ("selectorPhone".toList, if selectorPhone ≠ [] then selectorPhone else phone),
         ("smsOptIn".toList, smsOptIn),
         ("smsOptInTs".toList, smsOptInTs)]).toList
    else []
  let tags :=
    (if purchaseType = "subscription".toList then ["R4-Subscriber".toList] else []) ++
    (if purchaseType = "one_time".toList then ["R4-OneTime".toList] else []) ++
    (if smsOptIn = "yes".toList then ["SMS-OptIn".toList] else [])
  let ghlCalls :=
    if email = [] ∧ phone = [] then []
    else
      (ghlUpsertContact env
        { email := email, phone := phone, name := name, tags := tags
          custom :=
            [("r4_part_number".toList, partNumber),
             ("r4_service_summary".toList, serviceSummary),
             ("r4_monthly_amount".toList, monthlyAmount),
             ("stripe_customer_id".toList, customerId),
             ("stripe_subscription_id".toList, subscriptionId),
             ("stripe_subscription_status".toList,
               if subscriptionId ≠ [] then "active".toList else "n/a".toList),
             ("r4_customer_phone".toList, phone),
             ("r4_sms_opt_in".toList, smsOptIn),
             ("r4_sms_opt_in_ts".toList, smsOptInTs),
             ("r4_purchase_type".toList, purchaseType),
             ("r4_one_time_amount".toList, oneTimeAmount)] }).toList
  custCalls ++ updCalls ++ ghlCalls

/-- The `invoice.payment_succeeded` branch. -/
def invoicePaidCalls (rt : Runtime) (invoice : JsValue) : List OutCall :=
  let customerId := jsStrIfTruthy (jsGet invoice ("customer".toList))
  let subscriptionId := jsStrIfTruthy (jsGet invoice ("subscription".toList))
  let invoiceId := jsStrOrEmpty (jsGet invoice ("id".toList))
  let amountPaidCents := jsToNumber (jsCoalesce (jsGet invoice ("amount_paid".toList)) (.num (.val 0)))
  let amountPaid := jsToFixed2 (jsNumScale (1 / 100) amountPaidCents)
  let paidAtRaw := jsGet (jsGet invoice ("status_transitions".toList)) ("paid_at".toList)
  let paidAt :=
    if jsTruthy paidAtRaw then rt.dateToIso (jsNumScale 1000 (jsToNumber paidAtRaw))
    else rt.nowIso
  if customerId ≠ [] then
    (stripeUpdateCustomerMetadata customerId
      [("lastInvoiceId".toList, invoiceId),
       ("lastInvoicePaidAt".toList, paidAt),
       ("lastInvoiceAmount".toList, amountPaid),
       ("stripeSubscriptionId".toList, subscriptionId)]).toList
  else []

/-- The `customer.subscription.updated` branch. -/
def subscriptionUpdatedCalls (rt : Runtime) (sub : JsValue) : List OutCall :=
  let customerId := jsStrIfTruthy (jsGet sub ("customer".toList))
  let status := jsStrOrEmpty (jsGet sub ("status".toList))
  let cancelAtPeriodEnd := jsTruthy (jsGet sub ("cancel_at_period_end".toList))
  let cpe := jsGet sub ("current_period_end".toList)
  let currentPeriodEnd :=
    if jsTruthy cpe then rt.dateToIso (jsNumScale 1000 (jsToNumber cpe)) else []
  if customerId ≠ [] then
    (stripeUpdateCustomerMetadata customerId
      [("subscriptionStatus".toList, status),
       ("cancelAtPeriodEnd".toList, if cancelAtPeriodEnd then "true".toList else "false".toList),
       ("currentPeriodEnd".toList, currentPeriodEnd)]).toList
  else []

/-- The `customer.subscription.deleted` branch. -/
def subscriptionDeletedCalls (sub : JsValue) : List OutCall :=
  let customerId := jsStrIfTruthy (jsGet sub ("customer".toList))
  if customerId ≠ [] then
    (stripeUpdateCustomerMetadata customerId
      [("subscriptionStatus".toList, "canceled".toList),
       ("cancelAtPeriodEnd".toList, "false".toList)]).toList
  else []

/-- The event-kind extraction `String(event?.type || "")`. -/
def eventType (event : JsValue) : List Char := jsStrOrEmpty (jsGet event ("type".toList))

/-- The dispatch section of `handleStripeWebhook` (after signature
verification and JSON parsing): the four sequential `if` blocks on the
event type, with their outbound calls in program order. -/
def processEvent (env : Env) (rt : Runtime) (event : JsValue) : List OutCall :=
  let type := eventType event
  let obj := jsGet (jsGet event ("data".toList)) ("object".toList)
  (if type = "checkout.session.completed".toList then checkoutCompletedCalls env rt obj else []) ++
  (if type = "invoice.payment_succeeded".toList then invoicePaidCalls rt obj else []) ++
  (if type = "customer.subscription.updated".toList then subscriptionUpdatedCalls rt obj else []) ++
  (if type = "customer.subscription.deleted".toList then subscriptionDeletedCalls obj else [])

/-- `handleStripeWebhook`: method and configuration gates, the
`Stripe-Signature` header check, signature verification over the raw body,
`JSON.parse`, then dispatch; the response is `200 "ok"` whenever
verification and parsing succeed, whatever dispatch does. -/
def handleStripeWebhook (env : Env) (rt : Runtime) (req : WebhookRequest) : WebhookOutcome :=
  if req.method ≠ "POST".toList then ⟨405, "Method not allowed".toList, []⟩
  else if env.STRIPE_WEBHOOK_SECRET = [] then ⟨500, "Missing STRIPE_WEBHOOK_SECRET".toList, []⟩
  else if env.STRIPE_SECRET_KEY = [] then ⟨500, "Missing STRIPE_SECRET_KEY".toList, []⟩
  else
    match req.stripeSignature with
    | none => ⟨400, "Missing Stripe-Signature".toList, []⟩
    | some sig =>
      if sig = [] then ⟨400, "Missing Stripe-Signature".toList, []⟩
      else if ¬ verifyStripeSignature req.rawBody sig env.STRIPE_WEBHOOK_SECRET then
        ⟨400, "Invalid signature".toList, []⟩
      else
        match rt.jsonParse req.rawBody with
        | none => ⟨400, "Invalid JSON".toList, []⟩
        | some event => ⟨200, "ok".toList, processEvent env rt event⟩

/-- `handleCreateCheckoutSession` (subscription): method, configuration and
JSON gates; trim the string fields; `Number(...)`/`Math.round(...*100)` the
amount; reject missing part number, non-finite or non-positive cent
amounts, and missing or non-E.164 phones, all before any outbound call;
then create the Stripe session with the form parameters in program order. -/
def handleCreateCheckoutSession (env : Env) (rt : Runtime) (method : List Char)
    (body : Option JsValue) : CreateOutcome :=
  if method ≠ "POST".toList then ⟨.err 405 ("Method not allowed".toList), []⟩
  else if env.STRIPE_SECRET_KEY = [] then ⟨.err 500 ("Missing STRIPE_SECRET_KEY".toList), []⟩
  else
    match body with
    | none => ⟨.err 400 ("Invalid JSON".toList), []⟩
    | some b =>
      let partNumber := jsTrim (jsToString (jsCoalesce (jsGet b ("partNumber".toList)) (.str [])))
      let serviceSummary := jsTrim (jsToString (jsCoalesce (jsGet b ("serviceSummary".toList)) (.str [])))
      let customerEmail := jsTrim (jsToString (jsCoalesce (jsGet b ("customerEmail".toList)) (.str [])))
      let selectorPhone := jsTrim (jsToString (jsCoalesce (jsGet b ("phone".toList)) (.str [])))
      let sms := parseSmsOptIn (jsGet b ("smsOptIn".toList))
      let smsOptInTs := rt.nowIso
      let monthlyAmountNum := jsToNumber (jsGet b ("monthlyAmount".toList))
      let amountCents := jsMathRound (jsNumScale 100 monthlyAmountNum)
      if partNumber = [] then ⟨.err 400 ("Missing partNumber".toList), []⟩
      else if ¬ jsNumFinite monthlyAmountNum || jsLeZero amountCents then
        ⟨.err 400 ("monthlyAmount must be a positive number".toList), []⟩
      else if selectorPhone = [] || ¬ isLikelyE164 selectorPhone then
        ⟨.err 400 ("Missing or invalid phone (E.164 required)".toList), []⟩
      else
        let params :=
          [("mode".toList, "subscription".toList),
           ("success_url".toList,
             "https://r4homeservice.com/stripe-success?session_id={CHECKOUT_SESSION_ID}".toList),
           ("cancel_url".toList, "https://r4homeservice.com/stripe-cancel".toList),
           ("line_items[0][quantity]".toList, "1".toList),
           ("line_items[0][price_data][currency]".toList, "usd".toList),
           ("line_items[0][price_data][recurring][interval]".toList, "month".toList),
           ("line_items[0][price_data][unit_amount]".toList, jsNumToString amountCents),
           ("line_items[0][price_data][product_data][name]".toList, "R4 Home Service Plan".toList),
           ("line_items[0][price_data][product_data][description]".toList,
             "Custom home service membership based on your selected services.".toList),
           ("metadata[purchaseType]".toList, "subscription".toList),
           ("metadata[partNumber]".toList, partNumber),
           ("metadata[serviceSummary]".toList, serviceSummary),
           ("metadata[monthlyAmount]".toList, jsToFixed2 monthlyAmountNum),
           ("metadata[selectorPhone]".toList, selectorPhone),
           ("metadata[smsOptIn]".toList, sms.smsOptIn),
           ("metadata[smsOptInTs]".toList, smsOptInTs),
           ("subscription_data[metadata][purchaseType]".toList, "subscription".toList),
           ("subscription_data[metadata][partNumber]".toList, partNumber),
           ("subscription_data[metadata][serviceSummary]".toList, serviceSummary),
           ("subscription_data[metadata][monthlyAmount]".toList, jsToFixed2 monthlyAmountNum),
           ("subscription_data[metadata][selectorPhone]".toList, selectorPhone),
           ("subscription_data[metadata][smsOptIn]".toList, sms.smsOptIn),
           ("subscription_data[metadata][smsOptInTs]".toList, smsOptInTs)] ++
          (if customerEmail ≠ [] then [("customer_email".toList, customerEmail)] else [])
        let res := rt.createSessionResp params
        if ¬ res.ok then ⟨.err 400 ("Stripe error".toList), [.createCheckoutSession params]⟩
        else ⟨.ok (jsGet res.json ("url".toList)), [.createCheckoutSession params]⟩

/-- `handleCreateOneTimeCheckoutSession` (one-time payment): as the
subscription endpoint, but with a required `serviceSummary`, the
`oneTimeAmount` field, and payment-mode parameters. -/
def handleCreateOneTimeCheckoutSession (env : Env) (rt : Runtime) (method : List Char)
    (body : Option JsValue) : CreateOutcome :=
  if method ≠ "POST".toList then ⟨.err 405 ("Method not allowed".toList), []⟩
  else if env.STRIPE_SECRET_KEY = [] then ⟨.err 500 ("Missing STRIPE_SECRET_KEY".toList), []⟩
  else
    match body with
    | none => ⟨.err 400 ("Invalid JSON".toList), []⟩
    | some b =>
      let partNumber := jsTrim (jsToString (jsCoalesce (jsGet b ("partNumber".toList)) (.str [])))
      let serviceSummary := jsTrim (jsToString (jsCoalesce (jsGet b ("serviceSummary".toList)) (.str [])))
      let selectorPhone := jsTrim (jsToString (jsCoalesce (jsGet b ("phone".toList)) (.str [])))
      let sms := parseSmsOptIn (jsGet b ("smsOptIn".toList))
      let smsOptInTs := rt.nowIso
      let oneTimeAmountNum := jsToNumber (jsGet b ("oneTimeAmount".toList))
      let amountCents := jsMathRound (jsNumScale 100 oneTimeAmountNum)
      if partNumber = [] then ⟨.err 400 ("Missing partNumber".toList), []⟩
      else if serviceSummary = [] then ⟨.err 400 ("Missing serviceSummary".toList), []⟩
      else if ¬ jsNumFinite oneTimeAmountNum || jsLeZero amountCents then
        ⟨.err 400 ("oneTimeAmount must be a positive number".toList), []⟩
      else if selectorPhone = [] || ¬ isLikelyE164 selectorPhone then
        ⟨.err 400 ("Missing or invalid phone (E.164 required)".toList), []⟩
      else
        let params :=
          [("mode".toList, "payment".toList),
           ("customer_creation".toList, "always".toList),
           ("success_url".toList,
             "https://r4homeservice.com/stripe-success?session_id={CHECKOUT_SESSION_ID}".toList),
           ("cancel_url".toList, "https://r4homeservice.com/stripe-cancel".toList),
           ("line_items[0][quantity]".toList, "1".toList),
           ("line_items[0][price_data][currency]".toList, "usd".toList),
           ("line_items[0][price_data][unit_amount]".toList, jsNumToString amountCents),
           ("line_items[0][price_data][product_data][name]".toList,
             "R4 Home Service — One-Time Visit".toList),
           ("line_items[0][price_data][product_data][description]".toList, serviceSummary),
           ("metadata[purchaseType]".toList, "one_time".toList),
           ("metadata[partNumber]".toList, partNumber),
           ("metadata[serviceSummary]".toList, serviceSummary),
           ("metadata[oneTimeAmount]".toList, jsToFixed2 oneTimeAmountNum),
           ("metadata[selectorPhone]".toList, selectorPhone),
           ("metadata[smsOptIn]".toList, sms.smsOptIn),
           ("metadata[smsOptInTs]".toList, smsOptInTs),
           ("payment_intent_data[metadata][purchaseType]".toList, "one_time".toList),
           ("payment_intent_data[metadata][partNumber]".toList, partNumber),
           ("payment_intent_data[metadata][serviceSummary]".toList, serviceSummary),
           ("payment_intent_data[metadata][oneTimeAmount]".toList, jsToFixed2 oneTimeAmountNum),
           ("payment_intent_data[metadata][selectorPhone]".toList, selectorPhone),
           ("payment_intent_data[metadata][smsOptIn]".toList, sms.smsOptIn),
           ("payment_intent_data[metadata][smsOptInTs]".toList, smsOptInTs)]
        let res := rt.createSessionResp params
        if ¬ res.ok then ⟨.err 400 ("Stripe error".toList), [.createCheckoutSession params]⟩
        else ⟨.ok (jsGet res.json ("url".toList)), [.createCheckoutSession params]⟩

end Part003

/- ===================================================================
   Section 8: the earlier "CLEAN" revision of the webhook handler
   =================================================================== -/

namespace Part002

/-- This revision's `Env`: all four bindings declared required. -/
structure Env where
  STRIPE_SECRET_KEY : List Char
  STRIPE_WEBHOOK_SECRET : List Char
  GHL_PRIVATE_TOKEN : List Char
  GHL_LOCATION_ID : List Char

/-- This revision's `ghlUpsertContact`: same payload construction as the
latest revision, with the soft-disable guard testing the required string
bindings for truthiness. -/
def ghlUpsertContact (env : Env) (input : GhlInput) : Option OutCall :=
  if env.GHL_PRIVATE_TOKEN = [] || env.GHL_LOCATION_ID = [] then none
  else
    some (.ghlUpsert
      { locationId := env.GHL_LOCATION_ID
        tags := input.tags
        customFields := input.custom.filterMap (fun kv =>
          let fv := jsTrim kv.2
          if fv = [] then none else some (kv.1, fv))
        source := "stripe-webhook".toList
        email := if jsTrim input.email = [] then none else some (jsTrim input.email)
        phone := if jsTrim input.phone = [] then none else some (jsTrim input.phone)
        name := if jsTrim input.name = [] then none else some (jsTrim input.name) })

/-- The `checkout.session.completed` branch of this revision: contact data
straight off `customer_details` (no trims, no fallbacks), then an
unconditional GHL upsert. -/
def checkoutCompletedCalls (env : Env) (session : JsValue) : List OutCall :=
  let cd := jsGet session ("customer_details".toList)
  let email := jsStrOrEmpty (jsGet cd ("email".toList))
  let phone := jsStrOrEmpty (jsGet cd ("phone".toList))
  let name := jsStrOrEmpty (jsGet cd ("name".toList))
  let customerId := jsStrIfTruthy (jsGet session ("customer".toList))
  let subscriptionId := jsStrIfTruthy (jsGet session ("subscription".toList))
  let md := jsOr (jsGet session ("metadata".toList)) (JsValue.mkObj [])
  let partNumber := jsStrOrEmpty (jsGet md ("partNumber".toList))
  let serviceSummary := jsStrOrEmpty (jsGet md ("serviceSummary".toList))
  let monthlyAmount := jsStrOrEmpty (jsGet md ("monthlyAmount".toList))
  let updCalls :=
    if customerId ≠ [] then
      (stripeUpdateCustomerMetadata customerId
        [("partNumber".toList, partNumber),
         ("serviceSummary".toList, serviceSummary),
         ("monthlyAmount".toList, monthlyAmount),
         ("stripeCustomerId".toList, customerId),
         ("stripeSubscriptionId".toList, subscriptionId),
         ("subscriptionStatus".toList, "active".toList),
         ("lastCheckoutSession".toList, jsStrOrEmpty (jsGet session ("id".toList)))]).toList
    else []
  updCalls ++
    (ghlUpsertContact env
      { email := email, phone := phone, name := name
        tags := ["R4-Subscriber".toList]
        custom :=
          [("r4_part_number".toList, partNumber),
           ("r4_service_summary".toList, serviceSummary),
           ("r4_monthly_amount".toList, monthlyAmount),
           ("stripe_customer_id".toList, customerId),
           ("stripe_subscription_id".toList, subscriptionId),
           ("stripe_subscription_status".toList, "active".toList)] }).toList

/-- The `invoice.payment_succeeded` branch of this revision: metadata update
plus an unconditional GHL upsert with empty contact identifiers. -/
def invoicePaidCalls (env : Env) (rt : Runtime) (invoice : JsValue) : List OutCall :=
  let customerId := jsStrIfTruthy (jsGet invoice ("customer".toList))
  let subscriptionId := jsStrIfTruthy (jsGet invoice ("subscription".toList))
  let invoiceId := jsStrOrEmpty (jsGet invoice ("id".toList))
  let amountPaidCents := jsToNumber (jsCoalesce (jsGet invoice ("amount_paid".toList)) (.num (.val 0)))
  let amountPaid := jsToFixed2 (jsNumScale (1 / 100) amountPaidCents)
  let paidAtRaw := jsGet (jsGet invoice ("status_transitions".toList)) ("paid_at".toList)
  let paidAt :=
    if jsTruthy paidAtRaw then rt.dateToIso (jsNumScale 1000 (jsToNumber paidAtRaw))
    else rt.nowIso
  let updCalls :=
    if customerId ≠ [] then
      (stripeUpdateCustomerMetadata customerId
        [("lastInvoiceId".toList, invoiceId),
         ("lastInvoicePaidAt".toList, paidAt),
         ("lastInvoiceAmount".toList, amountPaid),
         ("stripeSubscriptionId".toList, subscriptionId)]).toList
    else []
  updCalls ++
    (ghlUpsertContact env
      { email := [], phone := [], name := []
        tags := ["R4-Subscriber".toList]
        custom :=
          [("stripe_subscription_id".toList, subscriptionId),
           ("stripe_last_invoice_id".toList, invoiceId),
           ("stripe_last_invoice_paid_at".toList, paidAt),
           ("stripe_last_invoice_amount".toList, amountPaid)] }).toList

/-- The `customer.subscription.updated` branch of this revision. -/
def subscriptionUpdatedCalls (env : Env) (rt : Runtime) (sub : JsValue) : List OutCall :=
  let customerId := jsStrIfTruthy (jsGet sub ("customer".toList))
  let status := jsStrOrEmpty (jsGet sub ("status".toList))
  let cancelAtPeriodEnd := jsTruthy (jsGet sub ("cancel_at_period_end".toList))
  let capeStr := if cancelAtPeriodEnd then "true".toList else "false".toList
  let cpe := jsGet sub ("current_period_end".toList)
  let currentPeriodEnd :=
    if jsTruthy cpe then rt.dateToIso (jsNumScale 1000 (jsToNumber cpe)) else []
  let updCalls :=
    if customerId ≠ [] then
      (stripeUpdateCustomerMetadata customerId
        [("subscriptionStatus".toList, status),
         ("cancelAtPeriodEnd".toList, capeStr),
         ("currentPeriodEnd".toList, currentPeriodEnd)]).toList
    else []
  updCalls ++
    (ghlUpsertContact env
      { email := [], phone := [], name := []
        tags := ["R4-Subscriber".toList]
        custom :=
          [("stripe_customer_id".toList, customerId),
           ("stripe_subscription_status".toList, status),
           ("stripe_cancel_at_period_end".toList, capeStr),
           ("stripe_current_period_end".toList, currentPeriodEnd)] }).toList

/-- The `customer.subscription.deleted` branch of this revision: metadata
update plus an unconditional GHL upsert with empty contact identifiers. -/
def subscriptionDeletedCalls (env : Env) (sub : JsValue) : List OutCall :=
  let customerId := jsStrIfTruthy (jsGet sub ("customer".toList))
  let updCalls :=
    if customerId ≠ [] then
      (stripeUpdateCustomerMetadata customerId
        [("subscriptionStatus".toList, "canceled".toList),
         ("cancelAtPeriodEnd".toList, "false".toList)]).toList
    else []
  updCalls ++
    (ghlUpsertContact env
      { email := [], phone := [], name := []
        tags := ["R4-Subscriber".toList]
        custom :=
          [("stripe_customer_id".toList, customerId),
           ("stripe_subscription_status".toList, "canceled".toList)] }).toList

/-- The dispatch section of this revision's `handleStripeWebhook`. -/
def processEvent (env : Env) (rt : Runtime) (event : JsValue) : List OutCall :=
  let type := jsStrOrEmpty (jsGet event ("type".toList))
  let obj := jsGet (jsGet event ("data".toList)) ("object".toList)
  (if type = "checkout.session.completed".toList then checkoutCompletedCalls env obj else []) ++
  (if type = "invoice.payment_succeeded".toList then invoicePaidCalls env rt obj else []) ++
  (if type = "customer.subscription.updated".toList then subscriptionUpdatedCalls env rt obj else []) ++
  (if type = "customer.subscription.deleted".toList then subscriptionDeletedCalls env obj else [])

/-- This revision's `handleStripeWebhook` (the gating is identical to the
latest revision's). -/
def handleStripeWebhook (env : Env) (rt : Runtime) (req : WebhookRequest) : WebhookOutcome :=
  if req.method ≠ "POST".toList then ⟨405, "Method not allowed".toList, []⟩
  else if env.STRIPE_WEBHOOK_SECRET = [] then ⟨500, "Missing STRIPE_WEBHOOK_SECRET".toList, []⟩
  else if env.STRIPE_SECRET_KEY = [] then ⟨500, "Missing STRIPE_SECRET_KEY".toList, []⟩
  else
    match req.stripeSignature with
    | none => ⟨400, "Missing Stripe-Signature".toList, []⟩
    | some sig =>
      if sig = [] then ⟨400, "Missing Stripe-Signature".toList, []⟩
      else if ¬ verifyStripeSignature req.rawBody sig env.STRIPE_WEBHOOK_SECRET then
        ⟨400, "Invalid signature".toList, []⟩
      else
        match rt.jsonParse req.rawBody with
        | none => ⟨400, "Invalid JSON".toList, []⟩
        | some event => ⟨200, "ok".toList, processEvent env rt event⟩

end Part002

/- ===================================================================
   Section 9: the `src/index.ts` revision's SMS opt-in coercion
   =================================================================== -/

namespace IndexTs

/-- The SMS-consent normalization of `handleCreateCheckoutSession` in the
`src/index.ts` revision: `const smsOptInBool = Boolean(body?.smsOptIn);
const smsOptIn = smsOptInBool ? "yes" : "no";` — plain truthiness coercion,
not `parseSmsOptIn`. -/
def smsOptInOf (v : JsValue) : List Char :=
  if jsTruthy v then "yes".toList else "no".toList

end IndexTs

/- ===================================================================
   Section 10: specification-side definitions and witness fixtures
   =================================================================== -/

/-- The acceptance condition of the spec's signature contract, written from
its words: the trimmed comma-separated parts contain a timestamp part
`t=<ts>` (the header is specified to carry exactly one; the code binds the
first) and at least one candidate part `v1=<hex>` whose value equals,
comparing case-insensitively, the lowercase hex HMAC-SHA256 of
`"<ts>.<body>"` under the secret. -/
def stripeSignatureSpecAccepts (payload sigHeader secret : List Char) : Prop :=
  let parts := (jsSplit ',' sigHeader).map jsTrim
  ∃ tp, parts.find? (fun p => jsStartsWith ("t=".toList) p) = some tp ∧
    ∃ p ∈ parts, jsStartsWith ("v1=".toList) p = true ∧
      jsToLower (p.drop 3) = hmacSHA256Hex secret (tp.drop 2 ++ '.' :: payload)

/-- A string that survives the header's comma-split-and-trim parsing intact:
no separator commas and no trimmable whitespace. -/
def headerSafe (s : List Char) : Prop :=
  ∀ c ∈ s, c ≠ ',' ∧ isJsWhitespace c = false

/-- The spec's amount-acceptance condition, from its words:
`Number(monthlyAmount)` is finite and rounding it times 100 to the nearest
integer is strictly positive. -/
def monthlyAmountAcceptedSpec (b : JsValue) : Prop :=
  ∃ q : ℚ, jsToNumber (jsGet b ("monthlyAmount".toList)) = .val q ∧ 0 < jsRound (q * 100)

/-- The claim's phone-rejection condition: the trimmed phone is empty, or
does not start with `+`, or has fewer than 10 or more than 15 digits. -/
def phoneRejectedSpec (b : JsValue) : Prop :=
  let ph := jsTrim (jsToString (jsCoalesce (jsGet b ("phone".toList)) (.str [])))
  ph = [] ∨ jsStartsWith ("+".toList) ph = false ∨
    (ph.filter isDigitChar).length < 10 ∨ 15 < (ph.filter isDigitChar).length

/-- The four event kinds the dispatcher recognizes. -/
def recognizedEventKinds : List (List Char) :=
  ["checkout.session.completed".toList, "invoice.payment_succeeded".toList,
   "customer.subscription.updated".toList, "customer.subscription.deleted".toList]

/-- A concrete runtime oracle for witnesses: `JSON.parse` yields the empty
object, fetches succeed with bare bodies, and the clock is fixed. -/
def witnessRuntime : Runtime :=
  { jsonParse := fun _ => some (JsValue.mkObj [])
    customerResp := fun _ => ⟨true, .null⟩
    createSessionResp := fun _ => ⟨true, JsValue.mkObj []⟩
    nowIso := "2025-01-01T00:00:00.000Z".toList
    dateToIso := fun _ => "1970-01-01T00:00:00.000Z".toList }

/-- A concrete fully-configured environment for the latest revision. -/
def witnessEnv003 : Part003.Env :=
  ⟨"sk".toList, "whsec".toList, some ("tok".toList), some ("loc".toList)⟩

/-- A concrete fully-configured environment for the earlier revision. -/
def witnessEnv002 : Part002.Env :=
  ⟨"sk".toList, "whsec".toList, "tok".toList, "loc".toList⟩


/-- Concrete completed-checkout event used by the C5 witness. -/
def c5WitnessEvent : JsValue :=
  JsValue.mkObj
    [("type".toList, .str ("checkout.session.completed".toList)),
     ("data".toList, JsValue.mkObj
       [("object".toList, JsValue.mkObj
         [("customer".toList, .str ("cus_1".toList)),
          ("customer_details".toList, JsValue.mkObj
            [("email".toList, .str ("a@b.com".toList))]),
          ("metadata".toList, JsValue.mkObj
            [("partNumber".toList, .str ("R4-100".toList))])])])]

/-- The GHL payload the C5 witness event produces. -/
def c5WitnessPayload : GhlPayload :=
  { locationId := "loc".toList
    tags := ["R4-Subscriber".toList]
    customFields :=
      [("r4_part_number".toList, "R4-100".toList),
       ("stripe_customer_id".toList, "cus_1".toList),
       ("stripe_subscription_status".toList, "n/a".toList),
       ("r4_purchase_type".toList, "subscription".toList)]
    source := "stripe-webhook".toList
    email := some ("a@b.com".toList), phone := none, name := none }


/-- Concrete subscription-deleted event used by the C9 witness. -/
def c9WitnessEvent : JsValue :=
  JsValue.mkObj
    [("type".toList, .str ("customer.subscription.deleted".toList)),
     ("data".toList, JsValue.mkObj
       [("object".toList, JsValue.mkObj
         [("customer".toList, .str ("cus_1".toList))])])]

/- ===================================================================
   Section 11: helper lemmas
   =================================================================== -/

theorem charToNat_inj {a b : Char} (h : a.toNat = b.toNat) : a = b :=
  Char.eq_of_val_eq (UInt32.ext h)

theorem lor_eq_zero_iff (a b : Nat) : a ||| b = 0 ↔ a = 0 ∧ b = 0 := by
  constructor
  · intro h
    constructor <;>
    · apply Nat.eq_of_testBit_eq
      intro i
      have h2 := congrArg (fun x => Nat.testBit x i) h
      simp only [Nat.testBit_lor, Nat.zero_testBit, Bool.or_eq_false_iff] at h2
      simp [h2.1, h2.2]
  · rintro ⟨rfl, rfl⟩
    rfl

theorem charXor_eq_zero (p : Char × Char) : Nat.xor p.1.toNat p.2.toNat = 0 ↔ p.1 = p.2 := by
  constructor
  · intro h
    exact charToNat_inj (Nat.xor_eq_zero.mp h)
  · intro h
    rw [h]
    exact Nat.xor_self _

theorem ctFold_snd (l : List (Char × Char)) : ∀ r n, (ctFold r n l).2 = n + l.length := by
  induction l with
  | nil => intro r n; simp [ctFold]
  | cons p ps ih =>
    intro r n
    rw [ctFold, ih]
    simp
    omega

theorem ctFold_fst (l : List (Char × Char)) :
    ∀ r n, ((ctFold r n l).1 = 0 ↔ r = 0 ∧ ∀ p ∈ l, p.1 = p.2) := by
  induction l with
  | nil => intro r n; simp [ctFold]
  | cons p ps ih =>
    intro r n
    rw [ctFold, ih]
    rw [lor_eq_zero_iff]
    simp only [List.forall_mem_cons, charXor_eq_zero]
    tauto

theorem zip_forall_eq : ∀ (as bs : List Char), as.length = bs.length →
    ((∀ p ∈ as.zip bs, p.1 = p.2) ↔ as = bs) := by
  intro as
  induction as with
  | nil =>
    intro bs h
    cases bs with
    | nil => simp
    | cons b bs => simp at h
  | cons a as ih =>
    intro bs h
    cases bs with
    | nil => simp at h
    | cons b bs =>
      simp only [List.zip_cons_cons, List.forall_mem_cons]
      rw [List.cons.injEq]
      have := ih bs (by simpa using h)
      tauto

theorem timingSafeEqualHex_eq_true_iff (a b : List Char) :
    timingSafeEqualHex a b = true ↔ jsToLower a = jsToLower b := by
  unfold timingSafeEqualHex
  by_cases h : (jsToLower a).length = (jsToLower b).length
  · simp only [h, ne_eq, not_true_eq_false, if_false, beq_iff_eq]
    rw [ctFold_fst]
    simp only [true_and]
    exact zip_forall_eq _ _ h
  · simp only [ne_eq, h, not_false_eq_true, if_true]
    constructor
    · intro hf; cases hf
    · intro he
      exact absurd (congrArg List.length he) h

theorem timingSafeEqualHexIters_of_eq_length {a b : List Char}
    (h : a.length = b.length) : timingSafeEqualHexIters a b = a.length := by
  have hl : (jsToLower a).length = (jsToLower b).length := by
    simp [jsToLower, h]
  unfold timingSafeEqualHexIters
  simp only [hl, ne_eq, not_true_eq_false, if_false]
  rw [ctFold_snd]
  simp [List.length_zip, jsToLower, h]

theorem timingSafeEqualHexIters_of_ne_length {a b : List Char}
    (h : a.length ≠ b.length) : timingSafeEqualHexIters a b = 0 := by
  have hl : (jsToLower a).length ≠ (jsToLower b).length := by
    simpa [jsToLower] using h
  unfold timingSafeEqualHexIters
  simp [hl]

theorem hex_toLower_fixed : ∀ c ∈ hexDigits, toLowerChar c = c := by decide

theorem hex_not_ws : ∀ c ∈ hexDigits, isJsWhitespace c = false := by decide

theorem hex_ne_comma : ∀ c ∈ hexDigits, c ≠ ',' := by decide

theorem hexDigit_mem (n : Nat) : hexDigit n ∈ hexDigits := by
  have h : ∀ m, m < 16 → hexDigits.getD m '0' ∈ hexDigits := by decide
  exact h (n % 16) (Nat.mod_lt _ (by norm_num))

theorem mem_bufferToHex {c : Char} {bs : List Nat} (h : c ∈ bufferToHex bs) : c ∈ hexDigits := by
  unfold bufferToHex at h
  rw [List.mem_flatten] at h
  obtain ⟨l, hl, hc⟩ := h
  rw [List.mem_map] at hl
  obtain ⟨b, _, rfl⟩ := hl
  unfold byteToHex at hc
  simp only [List.mem_cons, List.mem_singleton, List.not_mem_nil, or_false] at hc
  rcases hc with rfl | rfl <;> exact hexDigit_mem _

theorem mem_hmacHex {c : Char} {s m : List Char} (h : c ∈ hmacSHA256Hex s m) : c ∈ hexDigits :=
  mem_bufferToHex h

theorem jsToLower_hmacHex (s m : List Char) :
    jsToLower (hmacSHA256Hex s m) = hmacSHA256Hex s m := by
  unfold jsToLower
  conv_rhs => rw [← List.map_id (hmacSHA256Hex s m)]
  apply List.map_congr_left
  intro c hc
  exact hex_toLower_fixed c (mem_hmacHex hc)

theorem hmacHex_headerSafe (s m : List Char) : headerSafe (hmacSHA256Hex s m) := by
  intro c hc
  exact ⟨hex_ne_comma c (mem_hmacHex hc), hex_not_ws c (mem_hmacHex hc)⟩

theorem length_dropWhile_le' (p : Char → Bool) (l : List Char) :
    (l.dropWhile p).length ≤ l.length := by
  induction l with
  | nil => simp
  | cons c cs ih =>
    rw [List.dropWhile_cons]
    by_cases h : p c
    · simp only [h, if_true]
      exact Nat.le_succ_of_le ih
    · simp [h]

theorem dropWhile_head_false {p : Char → Bool} {c : Char} {cs : List Char}
    (h : List.dropWhile p (c :: cs) = c :: cs) : p c = false := by
  cases hpc : p c with
  | false => rfl
  | true =>
    rw [List.dropWhile_cons, if_pos hpc] at h
    have hle := length_dropWhile_le' p cs
    rw [h] at hle
    simp at hle

theorem dropWhile_eq_self_of_all {p : Char → Bool} {l : List Char}
    (h : ∀ c ∈ l, p c = false) : l.dropWhile p = l := by
  cases l with
  | nil => rfl
  | cons c cs =>
    rw [List.dropWhile_cons, if_neg]
    simp [h c (List.mem_cons_self c cs)]

theorem jsTrim_eq_self {s : List Char} (h : ∀ c ∈ s, isJsWhitespace c = false) :
    jsTrim s = s := by
  unfold jsTrim
  rw [dropWhile_eq_self_of_all h]
  rw [dropWhile_eq_self_of_all (fun c hc => h c (List.mem_reverse.mp hc))]
  exact List.reverse_reverse s

theorem trimRight_stable (p : Char → Bool) (v : List Char) (hv : v.dropWhile p = v) :
    ((v.reverse.dropWhile p).reverse).dropWhile p = (v.reverse.dropWhile p).reverse := by
  cases v with
  | nil => simp
  | cons c cs =>
    have hc : p c = false := dropWhile_head_false hv
    rw [List.reverse_cons, List.dropWhile_append]
    by_cases he : (cs.reverse.dropWhile p).isEmpty
    · rw [if_pos he]
      simp [List.dropWhile_cons, hc]
    · rw [if_neg he]
      rw [List.reverse_append]
      simp only [List.reverse_cons, List.reverse_nil, List.nil_append, List.singleton_append]
      rw [List.dropWhile_cons, if_neg (by simp [hc])]

theorem jsTrim_idem (s : List Char) : jsTrim (jsTrim s) = jsTrim s := by
  unfold jsTrim
  have hstab : (s.dropWhile isJsWhitespace).dropWhile isJsWhitespace
      = s.dropWhile isJsWhitespace := List.dropWhile_idempotent _ _
  have h1 := trimRight_stable isJsWhitespace (s.dropWhile isJsWhitespace) hstab
  rw [h1, List.reverse_reverse, List.dropWhile_idempotent]

theorem jsSplit_of_not_mem {sep : Char} {s : List Char} (h : sep ∉ s) :
    jsSplit sep s = [s] := by
  induction s with
  | nil => rfl
  | cons c cs ih =>
    have hc : c ≠ sep := by
      intro hcs
      exact h (hcs ▸ List.mem_cons_self c cs)
    have hcs : sep ∉ cs := fun hm => h (List.mem_cons_of_mem _ hm)
    rw [jsSplit, if_neg hc, ih hcs]

theorem jsSplit_append {sep : Char} (s t : List Char) (h : sep ∉ s) :
    jsSplit sep (s ++ sep :: t) = s :: jsSplit sep t := by
  induction s with
  | nil =>
    simp only [List.nil_append]
    rw [jsSplit, if_pos rfl]
  | cons c cs ih =>
    have hc : c ≠ sep := by
      intro hcs
      exact h (hcs ▸ List.mem_cons_self c cs)
    have hcs : sep ∉ cs := fun hm => h (List.mem_cons_of_mem _ hm)
    rw [List.cons_append, jsSplit, if_neg hc, ih hcs]

theorem verify_two_part_header (body ts sig secret : List Char)
    (hts : headerSafe ts) (hsig : headerSafe sig) :
    verifyStripeSignature body (('t' :: '=' :: ts) ++ ',' :: ('v' :: '1' :: '=' :: sig)) secret
      = timingSafeEqualHex sig (hmacSHA256Hex secret (ts ++ '.' :: body)) := by
  have hA : ',' ∉ ('t' :: '=' :: ts) := by
    simp only [List.mem_cons]
    rintro (h | h | h)
    · exact absurd h (by decide)
    · exact absurd h (by decide)
    · exact (hts ',' h).1 rfl
  have hB : ',' ∉ ('v' :: '1' :: '=' :: sig) := by
    simp only [List.mem_cons]
    rintro (h | h | h | h)
    · exact absurd h (by decide)
    · exact absurd h (by decide)
    · exact absurd h (by decide)
    · exact (hsig ',' h).1 rfl
  have hsplit : jsSplit ',' (('t' :: '=' :: ts) ++ ',' :: ('v' :: '1' :: '=' :: sig))
      = [('t' :: '=' :: ts), ('v' :: '1' :: '=' :: sig)] := by
    rw [jsSplit_append _ _ hA, jsSplit_of_not_mem hB]
  have htrimA : jsTrim ('t' :: '=' :: ts) = 't' :: '=' :: ts := by
    apply jsTrim_eq_self
    intro c hc
    rcases List.mem_cons.mp hc with rfl | hc
    · decide
    rcases List.mem_cons.mp hc with rfl | hc
    · decide
    · exact (hts c hc).2
  have htrimB : jsTrim ('v' :: '1' :: '=' :: sig) = 'v' :: '1' :: '=' :: sig := by
    apply jsTrim_eq_self
    intro c hc
    rcases List.mem_cons.mp hc with rfl | hc
    · decide
    rcases List.mem_cons.mp hc with rfl | hc
    · decide
    rcases List.mem_cons.mp hc with rfl | hc
    · decide
    · exact (hsig c hc).2
  have hpA : jsStartsWith ("t=".toList) ('t' :: '=' :: ts) = true := by
    simp [jsStartsWith, List.isPrefixOf]
  have hpB : jsStartsWith ("v1=".toList) ('t' :: '=' :: ts) = false := by
    simp [jsStartsWith, List.isPrefixOf]
  have hqB : jsStartsWith ("v1=".toList) ('v' :: '1' :: '=' :: sig) = true := by
    simp [jsStartsWith, List.isPrefixOf]
  unfold verifyStripeSignature
  rw [hsplit]
  simp only [List.map_cons, List.map_nil, htrimA, htrimB]
  rw [List.find?_cons_of_pos _ hpA]
  have hdrop2 : List.drop 2 ('t' :: '=' :: ts) = ts := rfl
  have hdrop3 : List.drop 3 ('v' :: '1' :: '=' :: sig) = sig := rfl
  simp only [List.filter_cons, hpB, hqB, List.filter_nil, hdrop2, hdrop3]
  simp

/- ===================================================================
   Section 12: the claims
   =================================================================== -/

/-- Zeta-reduced unfolding of `verifyStripeSignature`. -/
theorem verifyStripeSignature_eq (payload sigHeader secret : List Char) :
    verifyStripeSignature payload sigHeader secret =
      (match ((jsSplit ',' sigHeader).map jsTrim).find?
          (fun p => jsStartsWith ("t=".toList) p) with
       | none => false
       | some tp =>
         if (((jsSplit ',' sigHeader).map jsTrim).filter
             (fun p => jsStartsWith ("v1=".toList) p)).isEmpty = true then false
         else (((jsSplit ',' sigHeader).map jsTrim).filter
             (fun p => jsStartsWith ("v1=".toList) p)).any
           (fun v1 => timingSafeEqualHex (v1.drop 3)
             (hmacSHA256Hex secret (List.drop 2 tp ++ '.' :: payload)))) := rfl

/-- C1: for every raw body, signature-header string and secret,
`verifyStripeSignature` returns `true` iff the header (split on commas,
parts trimmed) contains a timestamp part `t=<ts>` and at least one
candidate part `v1=<hex>` whose value equals, comparing case-insensitively,
the lowercase hex HMAC-SHA256 of `"<ts>.<body>"` under the secret; in every
other case it returns `false` (and, being a total Lean function, never
throws). -/
theorem claim_C1_verify_iff_spec (payload sigHeader secret : List Char) :
    verifyStripeSignature payload sigHeader secret = true ↔
      stripeSignatureSpecAccepts payload sigHeader secret := by
  constructor
  · intro h
    rcases hfind : ((jsSplit ',' sigHeader).map jsTrim).find?
        (fun p => jsStartsWith ("t=".toList) p) with _ | tp
    · rw [verifyStripeSignature_eq] at h
      rw [hfind] at h
      simp at h
    · refine ⟨tp, hfind, ?_⟩
      rw [verifyStripeSignature_eq] at h
      rw [hfind] at h
      by_cases hfil : ((jsSplit ',' sigHeader).map jsTrim).filter
          (fun p => jsStartsWith ("v1=".toList) p) = []
      · rw [hfil] at h
        simp at h
      · simp only [List.isEmpty_iff, hfil, if_false, List.any_eq_true] at h
        obtain ⟨v1, hv1, heq⟩ := h
        obtain ⟨hmem, hpred⟩ := List.mem_filter.mp hv1
        refine ⟨v1, hmem, hpred, ?_⟩
        rw [← jsToLower_hmacHex secret (tp.drop 2 ++ '.' :: payload)]
        exact (timingSafeEqualHex_eq_true_iff _ _).mp heq
  · rintro ⟨tp, hfind, p, hp, hv, hlow⟩
    rw [verifyStripeSignature_eq]
    rw [hfind]
    have hpf : p ∈ ((jsSplit ',' sigHeader).map jsTrim).filter
        (fun q => jsStartsWith ("v1=".toList) q) := List.mem_filter.mpr ⟨hp, hv⟩
    have hne : ((jsSplit ',' sigHeader).map jsTrim).filter
        (fun q => jsStartsWith ("v1=".toList) q) ≠ [] := by
      intro h0
      rw [h0] at hpf
      exact List.not_mem_nil p hpf
    simp only [List.isEmpty_iff, hne, if_false, List.any_eq_true]
    refine ⟨p, hpf, ?_⟩
    rw [timingSafeEqualHex_eq_true_iff, jsToLower_hmacHex]
    exact hlow

/-- C3: `timingSafeEqualHex(a, b)` returns `true` exactly when `a` and `b`
have equal length and are equal after ASCII lowercasing, and the number of
loop iterations it performs is the (equal) length — independent of where
the strings differ — and 0 when the lengths differ (the guard runs before
the loop). -/
theorem claim_C3_constant_time_compare (a b : List Char) :
    (timingSafeEqualHex a b = true ↔ a.length = b.length ∧ jsToLower a = jsToLower b) ∧
    (a.length = b.length → timingSafeEqualHexIters a b = a.length) ∧
    (a.length ≠ b.length → timingSafeEqualHexIters a b = 0) := by
  refine ⟨?_, fun h => timingSafeEqualHexIters_of_eq_length h,
    fun h => timingSafeEqualHexIters_of_ne_length h⟩
  rw [timingSafeEqualHex_eq_true_iff]
  constructor
  · intro h
    have hl : a.length = b.length := by
      have := congrArg List.length h
      simpa [jsToLower] using this
    exact ⟨hl, h⟩
  · exact And.right

/-- Witness for C3: at `a = "Ab"`, `b = "aB"` the comparison succeeds
case-insensitively and performs exactly `length = 2` loop iterations. -/
theorem claim_C3_constant_time_compare_witness :
    ("Ab".toList.length = "aB".toList.length) ∧
    timingSafeEqualHexIters "Ab".toList "aB".toList = "Ab".toList.length ∧
    timingSafeEqualHex "Ab".toList "aB".toList = true :=
  ⟨by decide, (claim_C3_constant_time_compare "Ab".toList "aB".toList).2.1 (by decide),
    ((claim_C3_constant_time_compare "Ab".toList "aB".toList).1).mpr ⟨by decide, by decide⟩⟩

set_option maxRecDepth 100000 in
/-- C2 counterexample: the claim "changing any single byte of the body or of
the signature in that header makes verification return false" fails — at
secret `"whsec"`, body `"b"`, timestamp `"1"`, changing the single byte at
the second hex position of the signature from `d` to `D` leaves
verification `true` (the comparison is case-insensitive); and the claim's
roundtrip "for any timestamp" fails at the timestamp `"1,x"`, whose comma
is consumed by the header's comma-split, so verification of the correctly
signed header returns `false`. -/
theorem claim_C2_counterexample :
    (hmacSHA256Hex ("whsec".toList) ("1.b".toList) =
      "4ddfc0cccedb91c7ac6aa3d08fb8d32faa27522f8ea428f62b7cf8531f7b4ab0".toList) ∧
    ("t=1,v1=4Ddfc0cccedb91c7ac6aa3d08fb8d32faa27522f8ea428f62b7cf8531f7b4ab0".toList ≠
      "t=1,v1=4ddfc0cccedb91c7ac6aa3d08fb8d32faa27522f8ea428f62b7cf8531f7b4ab0".toList) ∧
    (("t=1,v1=4Ddfc0cccedb91c7ac6aa3d08fb8d32faa27522f8ea428f62b7cf8531f7b4ab0".toList.zip
        "t=1,v1=4ddfc0cccedb91c7ac6aa3d08fb8d32faa27522f8ea428f62b7cf8531f7b4ab0".toList).countP
        (fun p => p.1 != p.2) = 1) ∧
    verifyStripeSignature ("b".toList)
      ("t=1,v1=4Ddfc0cccedb91c7ac6aa3d08fb8d32faa27522f8ea428f62b7cf8531f7b4ab0".toList)
      ("whsec".toList) = true ∧
    verifyStripeSignature ("b".toList)
      ("t=1,x,v1=".toList ++ hmacSHA256Hex ("whsec".toList) ("1,x.b".toList))
      ("whsec".toList) = false := by
  decide

/-- C2 (amended): for every secret, body, and timestamp free of commas and
whitespace, verifying the body against the header
`t=<ts>,v1=<hmacSHA256Hex(secret, ts + "." + body)>` returns true;
replacing the signature part by any comma- and whitespace-free string whose
ASCII lowercasing differs from the expected hex makes verification false;
and replacing the body by one whose HMAC differs makes verification false. -/
theorem claim_C2_roundtrip_amended (secret body ts sig : List Char)
    (hts : headerSafe ts) (hsig : headerSafe sig) :
    (verifyStripeSignature body
      (('t' :: '=' :: ts) ++ ',' :: ('v' :: '1' :: '=' ::
        hmacSHA256Hex secret (ts ++ '.' :: body))) secret = true) ∧
    (jsToLower sig ≠ hmacSHA256Hex secret (ts ++ '.' :: body) →
      verifyStripeSignature body
        (('t' :: '=' :: ts) ++ ',' :: ('v' :: '1' :: '=' :: sig)) secret = false) ∧
    (∀ body', hmacSHA256Hex secret (ts ++ '.' :: body') ≠
        hmacSHA256Hex secret (ts ++ '.' :: body) →
      verifyStripeSignature body'
        (('t' :: '=' :: ts) ++ ',' :: ('v' :: '1' :: '=' ::
          hmacSHA256Hex secret (ts ++ '.' :: body))) secret = false) := by
  refine ⟨?_, ?_, ?_⟩
  · rw [verify_two_part_header body ts _ secret hts (hmacHex_headerSafe _ _)]
    exact (timingSafeEqualHex_eq_true_iff _ _).mpr rfl
  · intro h
    rw [verify_two_part_header body ts sig secret hts hsig]
    cases hq : timingSafeEqualHex sig (hmacSHA256Hex secret (ts ++ '.' :: body)) with
    | false => rfl
    | true =>
      have := (timingSafeEqualHex_eq_true_iff _ _).mp hq
      rw [jsToLower_hmacHex] at this
      exact absurd this h
  · intro body' hne
    rw [verify_two_part_header body' ts _ secret hts (hmacHex_headerSafe _ _)]
    cases hq : timingSafeEqualHex (hmacSHA256Hex secret (ts ++ '.' :: body))
        (hmacSHA256Hex secret (ts ++ '.' :: body')) with
    | false => rfl
    | true =>
      have := (timingSafeEqualHex_eq_true_iff _ _).mp hq
      rw [jsToLower_hmacHex, jsToLower_hmacHex] at this
      exact absurd this.symm hne

/-- Witness for C2 (amended): at secret `"whsec"`, body `"b"`, timestamp
`"1"`, signature stand-in `"x"`, the hypotheses hold and the correctly
signed header verifies. -/
theorem claim_C2_roundtrip_amended_witness :
    headerSafe ("1".toList) ∧ headerSafe ("x".toList) ∧
    (verifyStripeSignature ("b".toList)
      (('t' :: '=' :: "1".toList) ++ ',' :: ('v' :: '1' :: '=' ::
        hmacSHA256Hex ("whsec".toList) ("1".toList ++ '.' :: "b".toList)))
      ("whsec".toList) = true) :=
  ⟨by unfold headerSafe; decide, by unfold headerSafe; decide,
    (claim_C2_roundtrip_amended ("whsec".toList) ("b".toList) ("1".toList) ("x".toList)
      (by unfold headerSafe; decide) (by unfold headerSafe; decide)).1⟩

theorem verify_empty_header (p sec : List Char) :
    verifyStripeSignature p [] sec = false := rfl

/-- Zeta-reduced unfolding of the latest revision's event dispatch. -/
theorem Part003.processEvent_eq (env : Part003.Env) (rt : Runtime) (event : JsValue) :
    Part003.processEvent env rt event =
      (if Part003.eventType event = "checkout.session.completed".toList then
        Part003.checkoutCompletedCalls env rt (jsGet (jsGet event ("data".toList)) ("object".toList))
       else []) ++
      (if Part003.eventType event = "invoice.payment_succeeded".toList then
        Part003.invoicePaidCalls rt (jsGet (jsGet event ("data".toList)) ("object".toList))
       else []) ++
      (if Part003.eventType event = "customer.subscription.updated".toList then
        Part003.subscriptionUpdatedCalls rt (jsGet (jsGet event ("data".toList)) ("object".toList))
       else []) ++
      (if Part003.eventType event = "customer.subscription.deleted".toList then
        Part003.subscriptionDeletedCalls (jsGet (jsGet event ("data".toList)) ("object".toList))
       else []) := rfl

/-- C4: for every webhook request whose signature verifies and whose body
parses as JSON (with the method and configuration gates passed), the
latest revision's handler returns HTTP 200 with body `"ok"`, whatever the
event kind and whatever any downstream call returns (the handler never
branches on those outcomes — they are not even runtime inputs); and for
every event whose kind is not one of the four recognized kinds, no
outbound call is performed. -/
theorem claim_C4_webhook_always_ok (env : Part003.Env) (rt : Runtime) (req : WebhookRequest)
    (s : List Char) (ev : JsValue)
    (hm : req.method = "POST".toList)
    (hw : env.STRIPE_WEBHOOK_SECRET ≠ [])
    (hk : env.STRIPE_SECRET_KEY ≠ [])
    (hs : req.stripeSignature = some s)
    (hv : verifyStripeSignature req.rawBody s env.STRIPE_WEBHOOK_SECRET = true)
    (hp : rt.jsonParse req.rawBody = some ev) :
    (Part003.handleStripeWebhook env rt req).status = 200 ∧
    (Part003.handleStripeWebhook env rt req).body = "ok".toList ∧
    (Part003.eventType ev ∉ recognizedEventKinds →
      (Part003.handleStripeWebhook env rt req).calls = []) := by
  have hsne : s ≠ [] := by
    intro h0
    rw [h0, verify_empty_header] at hv
    cases hv
  have hres : Part003.handleStripeWebhook env rt req
      = ⟨200, "ok".toList, Part003.processEvent env rt ev⟩ := by
    unfold Part003.handleStripeWebhook
    rw [if_neg (by simp [hm]), if_neg (by simp [hw]), if_neg (by simp [hk]), hs]
    simp only [hsne, if_false, hv]
    simp only [not_true_eq_false, if_false, hp]
  refine ⟨by rw [hres], by rw [hres], ?_⟩
  intro hnk
  simp only [recognizedEventKinds, List.mem_cons, List.not_mem_nil, or_false, not_or] at hnk
  obtain ⟨h1, h2, h3, h4⟩ := hnk
  rw [hres]
  show Part003.processEvent env rt ev = []
  rw [Part003.processEvent_eq]
  rw [if_neg h1, if_neg h2, if_neg h3, if_neg h4]
  rfl

set_option maxRecDepth 100000 in
/-- Witness for C4: a concrete verified `POST` whose body parses to the
empty object (kind `""`, unrecognized) is acknowledged with 200 `"ok"` and
performs no outbound call. -/
theorem claim_C4_webhook_always_ok_witness :
    (Part003.handleStripeWebhook witnessEnv003 witnessRuntime
      ⟨"POST".toList,
       some ("t=1,v1=4ddfc0cccedb91c7ac6aa3d08fb8d32faa27522f8ea428f62b7cf8531f7b4ab0".toList),
       "b".toList⟩).status = 200 ∧
    (Part003.handleStripeWebhook witnessEnv003 witnessRuntime
      ⟨"POST".toList,
       some ("t=1,v1=4ddfc0cccedb91c7ac6aa3d08fb8d32faa27522f8ea428f62b7cf8531f7b4ab0".toList),
       "b".toList⟩).calls = [] :=
  have h := claim_C4_webhook_always_ok witnessEnv003 witnessRuntime
    ⟨"POST".toList,
     some ("t=1,v1=4ddfc0cccedb91c7ac6aa3d08fb8d32faa27522f8ea428f62b7cf8531f7b4ab0".toList),
     "b".toList⟩
    ("t=1,v1=4ddfc0cccedb91c7ac6aa3d08fb8d32faa27522f8ea428f62b7cf8531f7b4ab0".toList)
    (JsValue.mkObj []) rfl (by decide) (by decide) rfl (by decide) rfl
  ⟨h.1, h.2.2 (by decide)⟩

/-- Zeta-reduced unfolding of `stripeUpdateCustomerMetadata`. -/
theorem stripeUpdateCustomerMetadata_eq (cid : List Char) (md : List (List Char × List Char)) :
    stripeUpdateCustomerMetadata cid md =
      (if (md.filterMap fun kv =>
            if jsTrim kv.2 = [] then none else some (kv.1, jsTrim kv.2)) = [] then none
       else some (.updateCustomerMetadata cid (md.filterMap fun kv =>
            if jsTrim kv.2 = [] then none else some (kv.1, jsTrim kv.2)))) := rfl

theorem updateCall_shape {cid : List Char} {md : List (List Char × List Char)} {c : OutCall}
    (h : c ∈ (stripeUpdateCustomerMetadata cid md).toList) :
    ∃ m, c = OutCall.updateCustomerMetadata cid m := by
  rw [stripeUpdateCustomerMetadata_eq] at h
  split at h
  · simp at h
  · simp only [Option.toList_some, List.mem_singleton] at h
    exact ⟨_, h⟩

theorem no_ghl_in_update_list {cid : List Char} {md : List (List Char × List Char)}
    {p : GhlPayload} : OutCall.ghlUpsert p ∉ (stripeUpdateCustomerMetadata cid md).toList := by
  intro h
  obtain ⟨m, hm⟩ := updateCall_shape h
  exact OutCall.noConfusion hm

theorem Part003.ghl_mem_payload {env : Part003.Env} {inp : GhlInput} {p : GhlPayload}
    (h : OutCall.ghlUpsert p ∈ (Part003.ghlUpsertContact env inp).toList) :
    p.email = (if jsTrim inp.email = [] then none else some (jsTrim inp.email)) ∧
    p.phone = (if jsTrim inp.phone = [] then none else some (jsTrim inp.phone)) := by
  unfold Part003.ghlUpsertContact at h
  split at h
  · simp at h
  · simp only [Option.toList_some, List.mem_singleton] at h
    have hp := OutCall.ghlUpsert.inj h
    subst hp
    exact ⟨rfl, rfl⟩

theorem jsTrim_fix_ite {c : Prop} [Decidable c] {a b : List Char}
    (ha : jsTrim a = a) (hb : jsTrim b = b) : jsTrim (if c then a else b) = if c then a else b := by
  split <;> assumption

theorem mem_of_mem_ite_nil {α : Type} {c : Prop} [Decidable c] {l : List α} {x : α}
    (h : x ∈ (if c then l else [])) : x ∈ l := by
  by_cases hc : c
  · rwa [if_pos hc] at h
  · rw [if_neg hc] at h
    exact absurd h (List.not_mem_nil x)

theorem Part003.ghl_guard_aux (env : Part003.Env) (e ph nm : List Char)
    (tags : List (List Char)) (custom : List (List Char × List Char))
    (he : jsTrim e = e) (hph : jsTrim ph = ph) (p : GhlPayload)
    (h : OutCall.ghlUpsert p ∈ (if e = [] ∧ ph = [] then []
      else (Part003.ghlUpsertContact env ⟨e, ph, nm, tags, custom⟩).toList)) :
    p.email ≠ none ∨ p.phone ≠ none := by
  by_cases hg : (e = [] ∧ ph = [])
  · rw [if_pos hg] at h
    exact absurd h (List.not_mem_nil _)
  · rw [if_neg hg] at h
    obtain ⟨hE, hP⟩ := Part003.ghl_mem_payload h
    rw [not_and_or] at hg
    rcases hg with hg | hg
    · left
      rw [hE]
      show (if jsTrim e = [] then none else some (jsTrim e)) ≠ none
      rw [he, if_neg hg]
      simp
    · right
      rw [hP]
      show (if jsTrim ph = [] then none else some (jsTrim ph)) ≠ none
      rw [hph, if_neg hg]
      simp

theorem Part003.checkout_ghl_guard (env : Part003.Env) (rt : Runtime) (session : JsValue)
    (p : GhlPayload) (h : OutCall.ghlUpsert p ∈ Part003.checkoutCompletedCalls env rt session) :
    p.email ≠ none ∨ p.phone ≠ none := by
  simp only [Part003.checkoutCompletedCalls] at h
  rw [List.mem_append, List.mem_append] at h
  rcases h with (h | h) | h
  · have h2 := mem_of_mem_ite_nil h
    simp at h2
  · have h2 := mem_of_mem_ite_nil h
    exact absurd h2 no_ghl_in_update_list
  · exact Part003.ghl_guard_aux _ _ _ _ _ _
      (jsTrim_fix_ite (jsTrim_idem _) (jsTrim_idem _))
      (jsTrim_fix_ite (jsTrim_idem _) (jsTrim_fix_ite (jsTrim_idem _) (jsTrim_idem _))) p h

/-- C5 counterexample: in the earlier `Part002` revision of the webhook
handler (cited by the claim), an `invoice.payment_succeeded` event — whose
reconciled email and phone are both empty — does trigger a contact-upsert
call: the GHL payload with no email and no phone is posted whenever the
GHL credentials are configured. -/
theorem claim_C5_counterexample :
    OutCall.ghlUpsert
      { locationId := "loc".toList
        tags := ["R4-Subscriber".toList]
        customFields :=
          [("stripe_subscription_id".toList, "sub_1".toList),
           ("stripe_last_invoice_id".toList, "in_1".toList),
           ("stripe_last_invoice_paid_at".toList, "2025-01-01T00:00:00.000Z".toList),
           ("stripe_last_invoice_amount".toList, "49.99".toList)]
        source := "stripe-webhook".toList
        email := none, phone := none, name := none } ∈
      Part002.processEvent witnessEnv002 witnessRuntime
        (JsValue.mkObj
          [("type".toList, .str ("invoice.payment_succeeded".toList)),
           ("data".toList, JsValue.mkObj
             [("object".toList, JsValue.mkObj
               [("customer".toList, .str ("cus_1".toList)),
                ("subscription".toList, .str ("sub_1".toList)),
                ("id".toList, .str ("in_1".toList)),
                ("amount_paid".toList, .num (.val 4999))])])]) := by
  with_unfolding_all decide

/-- C5 (amended): in the latest revision's webhook dispatch, the
contact-management upsert endpoint is called only with a payload carrying a
non-empty email or a non-empty phone: every GHL call recorded by
`processEvent` — for any event and any runtime — has at least one of the
two identifiers present. (The earlier `Part002` revision violates this;
see the counterexample.) -/
theorem claim_C5_ghl_needs_email_or_phone (env : Part003.Env) (rt : Runtime) (ev : JsValue)
    (p : GhlPayload) (h : OutCall.ghlUpsert p ∈ Part003.processEvent env rt ev) :
    p.email ≠ none ∨ p.phone ≠ none := by
  rw [Part003.processEvent_eq] at h
  rw [List.mem_append, List.mem_append, List.mem_append] at h
  rcases h with ((h | h) | h) | h
  · exact Part003.checkout_ghl_guard env rt _ p (mem_of_mem_ite_nil h)
  · have h2 := mem_of_mem_ite_nil h
    simp only [Part003.invoicePaidCalls] at h2
    exact absurd (mem_of_mem_ite_nil h2) no_ghl_in_update_list
  · have h2 := mem_of_mem_ite_nil h
    simp only [Part003.subscriptionUpdatedCalls] at h2
    exact absurd (mem_of_mem_ite_nil h2) no_ghl_in_update_list
  · have h2 := mem_of_mem_ite_nil h
    simp only [Part003.subscriptionDeletedCalls] at h2
    exact absurd (mem_of_mem_ite_nil h2) no_ghl_in_update_list

/-- Witness for C5 (amended): a concrete completed-checkout event with an
email produces a GHL call, and the theorem reports a present identifier. -/
theorem claim_C5_ghl_needs_email_or_phone_witness :
    (OutCall.ghlUpsert c5WitnessPayload ∈
      Part003.processEvent witnessEnv003 witnessRuntime c5WitnessEvent) ∧
    (c5WitnessPayload.email ≠ none ∨ c5WitnessPayload.phone ≠ none) := by
  have hmem : OutCall.ghlUpsert c5WitnessPayload ∈
      Part003.processEvent witnessEnv003 witnessRuntime c5WitnessEvent := by
    with_unfolding_all decide
  exact ⟨hmem, claim_C5_ghl_needs_email_or_phone witnessEnv003 witnessRuntime
    c5WitnessEvent c5WitnessPayload hmem⟩

/-- C9 counterexample: the claim's "no contact-management call is made for
this event kind" fails on the earlier `Part002` revision (cited by the
claim): a `customer.subscription.deleted` event with a customer id posts a
contact-upsert payload (with empty contact identifiers) whenever GHL is
configured. -/
theorem claim_C9_counterexample :
    OutCall.ghlUpsert
      { locationId := "loc".toList
        tags := ["R4-Subscriber".toList]
        customFields :=
          [("stripe_customer_id".toList, "cus_1".toList),
           ("stripe_subscription_status".toList, "canceled".toList)]
        source := "stripe-webhook".toList
        email := none, phone := none, name := none } ∈
      Part002.processEvent witnessEnv002 witnessRuntime
        (JsValue.mkObj
          [("type".toList, .str ("customer.subscription.deleted".toList)),
           ("data".toList, JsValue.mkObj
             [("object".toList, JsValue.mkObj
               [("customer".toList, .str ("cus_1".toList))])])]) := by
  with_unfolding_all decide

/-- C9 (amended): in the latest revision, every
`customer.subscription.deleted` event carrying a (truthy, non-empty)
customer id produces exactly one outbound call — the provider
customer-metadata update setting `subscriptionStatus` to `"canceled"` and
`cancelAtPeriodEnd` to `"false"` — and in particular no contact-management
call. (The earlier `Part002` revision also posts a contact upsert; see the
counterexample.) -/
theorem claim_C9_subscription_deleted (env : Part003.Env) (rt : Runtime) (ev : JsValue)
    (ht : Part003.eventType ev = "customer.subscription.deleted".toList)
    (hc : jsStrIfTruthy (jsGet (jsGet (jsGet ev ("data".toList)) ("object".toList))
      ("customer".toList)) ≠ []) :
    Part003.processEvent env rt ev =
      [OutCall.updateCustomerMetadata
        (jsStrIfTruthy (jsGet (jsGet (jsGet ev ("data".toList)) ("object".toList))
          ("customer".toList)))
        [("subscriptionStatus".toList, "canceled".toList),
         ("cancelAtPeriodEnd".toList, "false".toList)]] ∧
    ∀ p : GhlPayload, OutCall.ghlUpsert p ∉ Part003.processEvent env rt ev := by
  have h1 : Part003.eventType ev ≠ "checkout.session.completed".toList := by
    rw [ht]; decide
  have h2 : Part003.eventType ev ≠ "invoice.payment_succeeded".toList := by
    rw [ht]; decide
  have h3 : Part003.eventType ev ≠ "customer.subscription.updated".toList := by
    rw [ht]; decide
  have hlist : Part003.processEvent env rt ev =
      [OutCall.updateCustomerMetadata
        (jsStrIfTruthy (jsGet (jsGet (jsGet ev ("data".toList)) ("object".toList))
          ("customer".toList)))
        [("subscriptionStatus".toList, "canceled".toList),
         ("cancelAtPeriodEnd".toList, "false".toList)]] := by
    rw [Part003.processEvent_eq, if_neg h1, if_neg h2, if_neg h3, if_pos ht]
    simp only [List.nil_append, List.append_nil]
    simp only [Part003.subscriptionDeletedCalls]
    rw [if_pos hc]
    rfl
  refine ⟨hlist, ?_⟩
  intro p hp
  rw [hlist] at hp
  simp at hp

/-- Witness for C9: the concrete deleted event with customer `cus_1`
produces exactly the canceling metadata update. -/
theorem claim_C9_subscription_deleted_witness :
    Part003.processEvent witnessEnv003 witnessRuntime c9WitnessEvent =
      [OutCall.updateCustomerMetadata ("cus_1".toList)
        [("subscriptionStatus".toList, "canceled".toList),
         ("cancelAtPeriodEnd".toList, "false".toList)]] :=
  (claim_C9_subscription_deleted witnessEnv003 witnessRuntime c9WitnessEvent
    (by decide) (by decide)).1

/-- C6 counterexample: the claim's "metadata keys and values are always
trimmed" fails for keys — submitting the single entry `{" a ": "x"}`
produces an update call whose key is still `" a "`, untrimmed. -/
theorem claim_C6_counterexample :
    stripeUpdateCustomerMetadata ("cus".toList) [(" a ".toList, "x".toList)] =
      some (OutCall.updateCustomerMetadata ("cus".toList) [(" a ".toList, "x".toList)]) ∧
    jsTrim (" a ".toList) ≠ " a ".toList := by
  decide

/-- C6 (amended): for every customer-metadata update, the submitted values
(not the keys, which pass through unchanged) are trimmed before sending,
entries whose value trims to the empty string are dropped and never
written, and if nothing survives the cleaning no update call is made at
all: no call happens iff every value trims empty, and any call made is an
update for the given customer whose entries are exactly the pairs
`(key, trimmed value)` of the submitted entries with non-empty trims. -/
theorem claim_C6_metadata_cleaning (cid : List Char) (md : List (List Char × List Char)) :
    (stripeUpdateCustomerMetadata cid md = none ↔ ∀ kv ∈ md, jsTrim kv.2 = []) ∧
    (∀ c, stripeUpdateCustomerMetadata cid md = some c →
      ∃ m, c = OutCall.updateCustomerMetadata cid m ∧
        ∀ kv : List Char × List Char,
          (kv ∈ m ↔ ∃ v, (kv.1, v) ∈ md ∧ jsTrim v = kv.2 ∧ kv.2 ≠ [])) := by
  rw [stripeUpdateCustomerMetadata_eq]
  constructor
  · by_cases hnil : (md.filterMap fun kv =>
        if jsTrim kv.2 = [] then none else some (kv.1, jsTrim kv.2)) = []
    · rw [if_pos hnil]
      simp only [true_iff]
      rw [List.filterMap_eq_nil_iff] at hnil
      intro kv hkv
      have hf := hnil kv hkv
      by_cases ht : jsTrim kv.2 = []
      · exact ht
      · rw [if_neg ht] at hf
        cases hf
    · rw [if_neg hnil]
      constructor
      · intro h
        cases h
      · intro hall
        exact absurd (List.filterMap_eq_nil_iff.mpr
          (fun kv hkv => by rw [if_pos (hall kv hkv)])) hnil
  · intro c hc
    by_cases hnil : (md.filterMap fun kv =>
        if jsTrim kv.2 = [] then none else some (kv.1, jsTrim kv.2)) = []
    · rw [if_pos hnil] at hc
      cases hc
    · rw [if_neg hnil] at hc
      have hcv := Option.some.inj hc
      refine ⟨_, hcv.symm, ?_⟩
      intro kv
      rw [List.mem_filterMap]
      constructor
      · rintro ⟨a, ha, hfa⟩
        by_cases ht : jsTrim a.2 = []
        · rw [if_pos ht] at hfa
          cases hfa
        · rw [if_neg ht] at hfa
          have hkv := Option.some.inj hfa
          subst hkv
          exact ⟨a.2, ha, rfl, ht⟩
      · rintro ⟨v, hmem, htrim, hne⟩
        refine ⟨(kv.1, v), hmem, ?_⟩
        have ht : jsTrim v ≠ [] := by
          rw [htrim]
          exact hne
        rw [if_neg ht, htrim]

/-- Witness for C6 (amended): at the claim's example mapping
`{a: " ", b: "x", c: ""}` the update call carries exactly `{b: "x"}`. -/
theorem claim_C6_metadata_cleaning_witness :
    ∃ m, OutCall.updateCustomerMetadata ("cus".toList) [("b".toList, "x".toList)] =
        OutCall.updateCustomerMetadata ("cus".toList) m ∧
      ∀ kv : List Char × List Char,
        (kv ∈ m ↔ ∃ v, (kv.1, v) ∈
            [("a".toList, " ".toList), ("b".toList, "x".toList), ("c".toList, ([] : List Char))] ∧
          jsTrim v = kv.2 ∧ kv.2 ≠ []) :=
  (claim_C6_metadata_cleaning ("cus".toList)
    [("a".toList, " ".toList), ("b".toList, "x".toList), ("c".toList, ([] : List Char))]).2
    (OutCall.updateCustomerMetadata ("cus".toList) [("b".toList, "x".toList)]) (by decide)

/-- Zeta-reduced unfolding of `parseSmsOptIn`. -/
theorem parseSmsOptIn_eq (v : JsValue) :
    parseSmsOptIn v =
      (if v = .bool true ∨ v = .num (.val 1) then ⟨"yes".toList, true⟩
       else if v = .bool false ∨ v = .num (.val 0) then ⟨"no".toList, false⟩
       else if jsToLower (jsTrim (jsToString (jsCoalesce v (.str [])))) = "true".toList ∨
              jsToLower (jsTrim (jsToString (jsCoalesce v (.str [])))) = "yes".toList ∨
              jsToLower (jsTrim (jsToString (jsCoalesce v (.str [])))) = "y".toList ∨
              jsToLower (jsTrim (jsToString (jsCoalesce v (.str [])))) = "1".toList then
         ⟨"yes".toList, true⟩
       else ⟨"no".toList, false⟩) := rfl

/-- C7 counterexample: the claim "every other input — including `"no"` … —
maps to "no"" fails on the `src/index.ts` revision it cites: that
revision's checkout handler coerces the flag with `Boolean(...)`, so the
non-empty strings `"no"` and `"false"` normalize to `"yes"`. -/
theorem claim_C7_counterexample :
    IndexTs.smsOptInOf (.str ("no".toList)) = "yes".toList ∧
    IndexTs.smsOptInOf (.str ("no".toList)) ≠ "no".toList ∧
    IndexTs.smsOptInOf (.str ("false".toList)) = "yes".toList := by
  decide

/-- C7 (amended): the latest revision's `parseSmsOptIn` normalizes exactly
as the claim states — `true`, `1`, and any string whose trimmed ASCII
lowercasing is `"true"`, `"yes"`, `"y"` or `"1"` map to `"yes"`; every
other input (including `false`, `0`, `"no"`, `""`, `"maybe"`, `null` and
`undefined`) maps to `"no"`; the output is always binary — while the older
`src/index.ts` revision instead uses JS truthiness (see counterexample). -/
theorem claim_C7_parseSmsOptIn_normalization :
    (∀ v : JsValue,
      ((parseSmsOptIn v).smsOptIn = "yes".toList ↔
        (v = .bool true ∨ v = .num (.val 1) ∨
          jsToLower (jsTrim (jsToString (jsCoalesce v (.str [])))) ∈
            ["true".toList, "yes".toList, "y".toList, "1".toList])) ∧
      ((parseSmsOptIn v).smsOptIn = "yes".toList ∨ (parseSmsOptIn v).smsOptIn = "no".toList)) ∧
    (parseSmsOptIn (.bool true)).smsOptIn = "yes".toList ∧
    (parseSmsOptIn (.num (.val 1))).smsOptIn = "yes".toList ∧
    (parseSmsOptIn (.str ("yes".toList))).smsOptIn = "yes".toList ∧
    (parseSmsOptIn (.str ("Y".toList))).smsOptIn = "yes".toList ∧
    (parseSmsOptIn (.str ("TRUE".toList))).smsOptIn = "yes".toList ∧
    (parseSmsOptIn (.bool false)).smsOptIn = "no".toList ∧
    (parseSmsOptIn (.num (.val 0))).smsOptIn = "no".toList ∧
    (parseSmsOptIn (.str ("no".toList))).smsOptIn = "no".toList ∧
    (parseSmsOptIn (.str [])).smsOptIn = "no".toList ∧
    (parseSmsOptIn (.str ("maybe".toList))).smsOptIn = "no".toList ∧
    (parseSmsOptIn .null).smsOptIn = "no".toList ∧
    (parseSmsOptIn .undefined).smsOptIn = "no".toList := by
  refine ⟨?_, by with_unfolding_all decide, by with_unfolding_all decide,
    by with_unfolding_all decide, by with_unfolding_all decide, by with_unfolding_all decide,
    by with_unfolding_all decide, by with_unfolding_all decide, by with_unfolding_all decide,
    by with_unfolding_all decide, by with_unfolding_all decide, by with_unfolding_all decide,
    by with_unfolding_all decide⟩
  intro v
  rw [parseSmsOptIn_eq]
  by_cases h1 : v = .bool true ∨ v = .num (.val 1)
  · rw [if_pos h1]
    refine ⟨iff_of_true rfl ?_, Or.inl rfl⟩
    rcases h1 with h | h
    · exact Or.inl h
    · exact Or.inr (Or.inl h)
  · rw [if_neg h1]
    by_cases h2 : v = .bool false ∨ v = .num (.val 0)
    · rw [if_pos h2]
      refine ⟨iff_of_false (by decide) ?_, Or.inr rfl⟩
      rintro (h | h | hm)
      · exact h1 (Or.inl h)
      · exact h1 (Or.inr h)
      · rcases h2 with rfl | rfl
        · exact absurd hm (by with_unfolding_all decide)
        · exact absurd hm (by with_unfolding_all decide)
    · rw [if_neg h2]
      by_cases h3 : jsToLower (jsTrim (jsToString (jsCoalesce v (.str [])))) = "true".toList ∨
          jsToLower (jsTrim (jsToString (jsCoalesce v (.str [])))) = "yes".toList ∨
          jsToLower (jsTrim (jsToString (jsCoalesce v (.str [])))) = "y".toList ∨
          jsToLower (jsTrim (jsToString (jsCoalesce v (.str [])))) = "1".toList
      · rw [if_pos h3]
        refine ⟨iff_of_true rfl (Or.inr (Or.inr ?_)), Or.inl rfl⟩
        simp only [List.mem_cons, List.not_mem_nil, or_false]
        exact h3
      · rw [if_neg h3]
        refine ⟨iff_of_false (by decide) ?_, Or.inr rfl⟩
        rintro (h | h | hm)
        · exact h1 (Or.inl h)
        · exact h1 (Or.inr h)
        · apply h3
          simpa only [List.mem_cons, List.not_mem_nil, or_false] using hm

theorem amountCond_iff_not_spec (b : JsValue) :
    ((decide (¬ jsNumFinite (jsToNumber (jsGet b ("monthlyAmount".toList))) = true)) ||
      jsLeZero (jsMathRound (jsNumScale 100
        (jsToNumber (jsGet b ("monthlyAmount".toList)))))) = true ↔
    ¬ monthlyAmountAcceptedSpec b := by
  unfold monthlyAmountAcceptedSpec
  cases hn : jsToNumber (jsGet b ("monthlyAmount".toList)) with
  | nan => simp [jsNumFinite, jsNumScale, jsMathRound, jsLeZero]
  | inf s => simp [jsNumFinite, jsNumScale, jsMathRound, jsLeZero]
  | val q =>
    simp only [jsNumFinite, jsNumScale, jsMathRound, jsLeZero, JsNumber.val.injEq]
    simp only [not_true_eq_false, decide_False, Bool.false_or, decide_eq_true_eq,
      Int.cast_nonpos]
    constructor
    · intro hle
      rintro ⟨q', rfl, hpos⟩
      omega
    · intro hne
      by_contra hgt
      exact hne ⟨q, rfl, by omega⟩

theorem monthlyAmountAccepted_of_checks (b : JsValue)
    (h1 : jsNumFinite (jsToNumber (jsGet b ("monthlyAmount".toList))) = true)
    (h2 : jsLeZero (jsMathRound (jsNumScale 100
      (jsToNumber (jsGet b ("monthlyAmount".toList))))) = false) :
    monthlyAmountAcceptedSpec b := by
  cases hn : jsToNumber (jsGet b ("monthlyAmount".toList)) with
  | nan => rw [hn] at h1; exact absurd h1 (by decide)
  | inf s => rw [hn] at h1; exact absurd h1 (by simp [jsNumFinite])
  | val q =>
    refine ⟨q, hn, ?_⟩
    rw [hn] at h2
    simp only [jsNumScale, jsMathRound, jsLeZero, decide_eq_false_iff_not,
      Int.cast_nonpos] at h2
    omega

set_option maxRecDepth 100000 in
/-- C8: at checkout-session creation (method and configuration gates passed,
part number present), the monthly amount is rejected with the HTTP-400
amount error exactly when `Number(monthlyAmount)` is not finite or rounding
it times 100 to the nearest integer is not strictly positive; and the
claim's examples — `"abc"` parses to `NaN`; `19.999` rounds to 2000 cents
and is accepted; `0.004`, `0`, `-5`, `"abc"` and `NaN` are rejected. -/
theorem claim_C8_amount_validation :
    (∀ (env : Part003.Env) (rt : Runtime) (b : JsValue),
      env.STRIPE_SECRET_KEY ≠ [] →
      jsTrim (jsToString (jsCoalesce (jsGet b ("partNumber".toList)) (.str []))) ≠ [] →
      ((Part003.handleCreateCheckoutSession env rt ("POST".toList) (some b)).resp =
          CreateResp.err 400 ("monthlyAmount must be a positive number".toList) ↔
        ¬ monthlyAmountAcceptedSpec b)) ∧
    (jsToNumber (.str ("abc".toList)) = .nan) ∧
    (jsRound ((19999 : ℚ) / 1000 * 100) = 2000) ∧
    monthlyAmountAcceptedSpec (JsValue.mkObj [("monthlyAmount".toList, .str ("19.999".toList))]) ∧
    ¬ monthlyAmountAcceptedSpec (JsValue.mkObj [("monthlyAmount".toList, .str ("0.004".toList))]) ∧
    ¬ monthlyAmountAcceptedSpec (JsValue.mkObj [("monthlyAmount".toList, .num (.val 0))]) ∧
    ¬ monthlyAmountAcceptedSpec (JsValue.mkObj [("monthlyAmount".toList, .num (.val (-5)))]) ∧
    ¬ monthlyAmountAcceptedSpec (JsValue.mkObj [("monthlyAmount".toList, .str ("abc".toList))]) ∧
    ¬ monthlyAmountAcceptedSpec (JsValue.mkObj [("monthlyAmount".toList, .num .nan)]) := by
  refine ⟨?_, by with_unfolding_all decide, by with_unfolding_all decide,
    monthlyAmountAccepted_of_checks _ (by with_unfolding_all decide)
      (by with_unfolding_all decide),
    (amountCond_iff_not_spec _).mp (by with_unfolding_all decide),
    (amountCond_iff_not_spec _).mp (by with_unfolding_all decide),
    (amountCond_iff_not_spec _).mp (by with_unfolding_all decide),
    (amountCond_iff_not_spec _).mp (by with_unfolding_all decide),
    (amountCond_iff_not_spec _).mp (by with_unfolding_all decide)⟩
  intro env rt b hk hpn
  simp only [Part003.handleCreateCheckoutSession]
  rw [if_neg (show ¬ "POST".toList ≠ "POST".toList by simp)]
  rw [if_neg hk]
  rw [if_neg hpn]
  split
  case isTrue hc =>
    exact iff_of_true rfl ((amountCond_iff_not_spec b).mp hc)
  case isFalse hc =>
    refine iff_of_false ?_ ?_
    · intro habs
      split at habs
      · injection habs with h1 h2
        exact absurd h2 (by decide)
      · split at habs <;> split at habs <;>
          first
          | exact CreateResp.noConfusion habs
          | (injection habs with h1 h2
             exact absurd h2 (by decide))
    · intro hnspec
      exact hc ((amountCond_iff_not_spec b).mpr hnspec)

set_option maxRecDepth 100000 in
/-- Witness for C8: a concrete valid request with `monthlyAmount = 19.999`
is not rejected by the amount check. -/
theorem claim_C8_amount_validation_witness :
    (Part003.handleCreateCheckoutSession witnessEnv003 witnessRuntime ("POST".toList)
      (some (JsValue.mkObj
        [("partNumber".toList, .str ("R4-100".toList)),
         ("monthlyAmount".toList, .str ("19.999".toList)),
         ("phone".toList, .str ("+13525551234".toList))]))).resp ≠
      CreateResp.err 400 ("monthlyAmount must be a positive number".toList) := by
  have h := (claim_C8_amount_validation.1 witnessEnv003 witnessRuntime
    (JsValue.mkObj
      [("partNumber".toList, .str ("R4-100".toList)),
       ("monthlyAmount".toList, .str ("19.999".toList)),
       ("phone".toList, .str ("+13525551234".toList))])
    (by decide) (by with_unfolding_all decide))
  intro habs
  exact (h.mp habs) (monthlyAmountAccepted_of_checks _
    (by with_unfolding_all decide) (by with_unfolding_all decide))

theorem phone_cond_contradiction (b : JsValue)
    (hph : phoneRejectedSpec b)
    (hne : ¬ jsTrim (jsToString (jsCoalesce (jsGet b ("phone".toList)) (.str []))) = [])
    (hE : isLikelyE164 (jsTrim (jsToString (jsCoalesce (jsGet b ("phone".toList)) (.str []))))
      = true) : False := by
  have hfix := jsTrim_idem (jsToString (jsCoalesce (jsGet b ("phone".toList)) (.str [])))
  simp only [isLikelyE164, hfix] at hE
  by_cases hs : jsStartsWith ("+".toList)
      (jsTrim (jsToString (jsCoalesce (jsGet b ("phone".toList)) (.str [])))) = true
  · rw [if_neg (by simp only [not_not]; exact hs)] at hE
    have hd := of_decide_eq_true hE
    simp only [phoneRejectedSpec] at hph
    rcases hph with h | h | h | h
    · exact hne h
    · rw [hs] at h; cases h
    · omega
    · omega
  · rw [if_pos (by simpa using hs)] at hE
    cases hE

/-- C10: on both checkout-session creation endpoints (POST, secret key
configured, body parsed), a request whose trimmed phone is empty, does not
start with `+`, or carries fewer than 10 or more than 15 digit characters
is rejected with HTTP 400 before any outbound call. -/
theorem claim_C10_phone_validation (env : Part003.Env) (rt : Runtime) (b : JsValue)
    (hk : env.STRIPE_SECRET_KEY ≠ [])
    (hph : phoneRejectedSpec b) :
    (∃ msg, Part003.handleCreateCheckoutSession env rt ("POST".toList) (some b) =
      ⟨CreateResp.err 400 msg, []⟩) ∧
    (∃ msg, Part003.handleCreateOneTimeCheckoutSession env rt ("POST".toList) (some b) =
      ⟨CreateResp.err 400 msg, []⟩) := by
  constructor
  · simp only [Part003.handleCreateCheckoutSession]
    rw [if_neg (show ¬ "POST".toList ≠ "POST".toList by simp)]
    rw [if_neg hk]
    split
    · exact ⟨_, rfl⟩
    · split
      · exact ⟨_, rfl⟩
      · split
        · exact ⟨_, rfl⟩
        · rename_i hcond
          exfalso
          simp only [Bool.or_eq_true, decide_eq_true_eq, not_or, not_not] at hcond
          exact phone_cond_contradiction b hph hcond.1 hcond.2
  · simp only [Part003.handleCreateOneTimeCheckoutSession]
    rw [if_neg (show ¬ "POST".toList ≠ "POST".toList by simp)]
    rw [if_neg hk]
    split
    · exact ⟨_, rfl⟩
    · split
      · exact ⟨_, rfl⟩
      · split
        · exact ⟨_, rfl⟩
        · split
          · exact ⟨_, rfl⟩
          · rename_i hcond
            exfalso
            simp only [Bool.or_eq_true, decide_eq_true_eq, not_or, not_not] at hcond
            exact phone_cond_contradiction b hph hcond.1 hcond.2

/-- Witness for C10: a concrete request whose phone lacks the leading `+`
is rejected with a 400 and no outbound call on both endpoints. -/
theorem claim_C10_phone_validation_witness :
    (∃ msg, Part003.handleCreateCheckoutSession witnessEnv003 witnessRuntime ("POST".toList)
      (some (JsValue.mkObj
        [("partNumber".toList, .str ("R4-100".toList)),
         ("monthlyAmount".toList, .str ("19.999".toList)),
         ("phone".toList, .str ("3525551234".toList))])) =
      ⟨CreateResp.err 400 msg, []⟩) ∧
    (∃ msg, Part003.handleCreateOneTimeCheckoutSession witnessEnv003 witnessRuntime ("POST".toList)
      (some (JsValue.mkObj
        [("partNumber".toList, .str ("R4-100".toList)),
         ("monthlyAmount".toList, .str ("19.999".toList)),
         ("phone".toList, .str ("3525551234".toList))])) =
      ⟨CreateResp.err 400 msg, []⟩) :=
  claim_C10_phone_validation witnessEnv003 witnessRuntime
    (JsValue.mkObj
      [("partNumber".toList, .str ("R4-100".toList)),
       ("monthlyAmount".toList, .str ("19.999".toList)),
       ("phone".toList, .str ("3525551234".toList))])
    (by decide)
    (by simp only [phoneRejectedSpec]; with_unfolding_all decide)
